import Mathlib

/-!
Couchbase transactions client: a shallow embedding

The development follows the C++ sources of the repository:

* `include/couchbase/transactions/transaction_get_result.hxx`
  (`transaction_get_result::create_from`, the copy constructor and `operator=`),
* `src/collection.cxx` (the key/value and sub-document facade and its callbacks),
* `src/client/cluster.cxx` (`connect`, the constructors, `cluster::bucket` and
  `operator==`),
* `examples/game_server.cxx` (`make_uuid`),
* `include/libcouchbase/transactions/staged_mutation.hxx` and
  `src/transactions/atr_cleanup_entry.hxx` (class declarations only).

The member functions of the staged-mutation log and of the cleanup queue, the ATR manager,
the error classification, the attempt context and the transaction context are not among
these sources; they are modelled from the specification, and each such definition says so.

`std::string` is `String`, `boost::optional<T>` is `Option T`, `std::vector<T>` is `List T`,
C++ exceptions are the error side of `Except`. The sources read vectors with the unchecked
`operator[]`: a read of `res.values` past its end is marked by the error `out_of_range` (the
results of the theorems have their twelve slots, or are results that were returned), and a
read of `splits` past its end, which throws nothing, yields the string `past_end`.
Unsigned machine integers are `Nat`; the only arithmetic on them is the conversion to
`uint32_t`, which is taken modulo `2 ^ 32`.
-/

set_option autoImplicit false

namespace couchbase

/-! ## JSON values (the part of `nlohmann::json` used by the sources) -/

/-- JSON documents: null, booleans, integral numbers, strings, arrays and objects
(an object is its list of members, looked up by key from the front). -/
inductive Json where
  | null : Json
  | bool (b : Bool) : Json
  | num (n : Int) : Json
  | str (s : String) : Json
  | arr (items : List Json) : Json
  | obj (members : List (String × Json)) : Json

/-- Failures raised while decoding a lookup result. -/
inductive Failure where
  -- an index past the end of a `std::vector`
  | out_of_range : Failure
  -- the `nlohmann::json` type error with the given id (302: wrong type for `get`,
  -- 305: `operator[]` with a string key on a non-object)
  | type_error (code : Nat) : Failure
  -- a `std::runtime_error` with its message and the libcouchbase status it reports
  | runtime_error (what : String) (rc : Nat) : Failure
  -- the dereference of an empty `boost::optional`
  | empty_optional : Failure
  deriving DecidableEq, Repr

namespace Json

/-- The conversion `get<std::string>()`: only a JSON string converts. -/
def get_string : Json → Except Failure String
  | str s => .ok s
  | _ => .error (.type_error 302)

/-- The conversion `get<uint32_t>()`: numbers and booleans convert (by `static_cast`, so an
integer is reduced modulo `2 ^ 32`), every other value is a type error. -/
def get_uint32 : Json → Except Failure Nat
  | num n => .ok (n % (2 ^ 32 : Int)).toNat
  | bool b => .ok (if b then 1 else 0)
  | _ => .error (.type_error 302)

/-- First member with the given key in a member list. -/
def lookup (key : String) : List (String × Json) → Option Json
  | [] => none
  | (k, v) :: rest => if k = key then some v else lookup key rest

/-- The non-const `operator[](key)`: on an object the member (a missing member is created as
null), on null an object is created and the new member is null, otherwise type error 305. -/
def at_key (j : Json) (key : String) : Except Failure Json :=
  match j with
  | obj members => .ok ((lookup key members).getD null)
  | null => .ok null
  | _ => .error (.type_error 305)

end Json

/-! ## `couchbase::result` -/

/-- The `couchbase::result` record filled in by the response callbacks. -/
structure result where
  rc : Nat
  cas : Nat
  datatype : Nat
  flags : Nat
  key : String
  value : Option Json
  values : List (Option Json)
  is_deleted : Bool

/-- The vector access `res.values[i]`; an index past the end, which a result with its twelve
slots never has, is marked as an error. -/
def result.values_at (res : result) (i : Nat) : Except Failure (Option Json) :=
  match res.values[i]? with
  | some slot => .ok slot
  | none => .error .out_of_range

/-! ## `boost::split` -/

/-- The tokens of `boost::split(splits, name, pred)` with the default
`token_compress_off`: the input is cut at every character satisfying `pred`, empty tokens
are kept, and an input without such a character is a single token. -/
def split_chars (pred : Char → Bool) : List Char → List (List Char)
  | [] => [[]]
  | c :: cs =>
    if pred c then [] :: split_chars pred cs
    else
      match split_chars pred cs with
      | [] => [[c]]
      | tok :: toks => (c :: tok) :: toks

/-- The function `boost::split` on strings. -/
def split (pred : Char → Bool) (name : String) : List String :=
  (split_chars pred name.data).map String.mk

/-- The vector access `splits[i]` with the unchecked `operator[]` of `std::vector`: nothing
is thrown. A read past the end is undefined behaviour in the source; `past_end` stands for
the string that such a read yields. -/
def splits_at (past_end : String) (splits : List String) (i : Nat) : String :=
  match splits[i]? with
  | some s => s
  | none => past_end

namespace transactions

/-- The `transaction_links` record; the fields are in the order of the constructor
arguments. -/
structure transaction_links where
  atr_id : Option String
  atr_bucket_name : Option String
  atr_scope_name : Option String
  atr_collection_name : Option String
  staged_transaction_id : Option String
  staged_attempt_id : Option String
  staged_content : Option String
  cas_pre_txn : Option String
  revid_pre_txn : Option String
  exptime_pre_txn : Option Nat
  crc32_of_staging : Option String
  op : Option String
  forward_compat : Option Json
  is_deleted : Bool

/-- The `document_metadata` record read from the virtual `$document` xattr. -/
structure document_metadata where
  cas : Option String
  revid : Option String
  exptime : Option Nat
  crc32 : Option String

/-- The `transaction_get_result` class; `coll` stands for the collection reference
(bucket name, scope and collection name). -/
structure transaction_get_result where
  coll : String × String × String
  value : String
  id : String
  cas : Nat
  links : transaction_links
  metadata : Option document_metadata

namespace transaction_get_result

/-- The slot `res.values[i]` read as `content_as<std::string>()` when it has a value. -/
def string_slot (res : result) (i : Nat) : Except Failure (Option String) := do
  match (← res.values_at i) with
  | some v => pure (some (← v.get_string))
  | none => pure none

/-- Slot 5: the scope and collection names, `splits[0]` and `splits[1]` of the value split
at `'.'`; both are read without a check. -/
def scope_collection_slot (past_end : String) (res : result) :
    Except Failure (Option String × Option String) := do
  match (← res.values_at 5) with
  | some v =>
    let name ← v.get_string
    let splits := split (fun c => c == '.') name
    let atr_scope_name := splits_at past_end splits 0
    let atr_collection_name := splits_at past_end splits 1
    pure (some atr_scope_name, some atr_collection_name)
  | none => pure (none, none)

/-- Slot 6: the members `CAS`, `revid` and `exptime` of `txn.restore`. -/
def restore_slot (res : result) :
    Except Failure (Option String × Option String × Option Nat) := do
  match (← res.values_at 6) with
  | some restore =>
    let cas_pre_txn ← (← restore.at_key "CAS").get_string
    let revid_pre_txn ← (← restore.at_key "revid").get_string
    let exptime_pre_txn ← (← restore.at_key "exptime").get_uint32
    pure (some cas_pre_txn, some revid_pre_txn, some exptime_pre_txn)
  | none => pure (none, none, none)

/-- Slot 8: the members `CAS`, `revid`, `exptime` and `value_crc32c` of `$document`. -/
def document_slot (res : result) :
    Except Failure (Option String × Option String × Option Nat × Option String) := do
  match (← res.values_at 8) with
  | some doc =>
    let cas_from_doc ← (← doc.at_key "CAS").get_string
    let revid_from_doc ← (← doc.at_key "revid").get_string
    let exptime_from_doc ← (← doc.at_key "exptime").get_uint32
    let crc32_from_doc ← (← doc.at_key "value_crc32c").get_string
    pure (some cas_from_doc, some revid_from_doc, some exptime_from_doc, some crc32_from_doc)
  | none => pure (none, none, none, none)

/-- The static `create_from(collection&, std::string id, result res)`: decodes the twelve
lookup slots in the order of the source. `dump` is `nlohmann::json::dump()`, and `past_end`
is what the unchecked read of `splits[1]` yields when slot 5 has no `'.'`. -/
def create_from (dump : Json → String) (past_end : String)
    (collection : String × String × String)
    (id : String) (res : result) : Except Failure transaction_get_result := do
  let atr_id ← string_slot res 0
  let transaction_id ← string_slot res 1
  let attempt_id ← string_slot res 2
  let staged_content ← string_slot res 3
  let atr_bucket_name ← string_slot res 4
  let (atr_scope_name, atr_collection_name) ← scope_collection_slot past_end res
  let (cas_pre_txn, revid_pre_txn, exptime_pre_txn) ← restore_slot res
  let op ← string_slot res 7
  let (cas_from_doc, revid_from_doc, exptime_from_doc, crc32_from_doc) ← document_slot res
  let crc32_of_staging ← string_slot res 9
  let forward_compat ← (do
    match (← res.values_at 10) with
    | some v => pure (some v)
    | none => pure (some (Json.obj [])))
  let content ← (do
    match (← res.values_at 11) with
    | some v => pure (dump v)
    | none => pure "")
  let links : transaction_links :=
    ⟨atr_id, atr_bucket_name, atr_scope_name, atr_collection_name, transaction_id, attempt_id,
      staged_content, cas_pre_txn, revid_pre_txn, exptime_pre_txn, crc32_of_staging, op,
      forward_compat, res.is_deleted⟩
  let md : document_metadata := ⟨cas_from_doc, revid_from_doc, exptime_from_doc, crc32_from_doc⟩
  pure ⟨collection, content, id, res.cas, links, some md⟩

end transaction_get_result

end transactions

end couchbase

namespace couchbase.transactions

/-- A lookup result of a document staged by a transaction: all twelve slots but the
forward-compatibility one are present. -/
def staged_lookup : result :=
  ⟨0, 1616, 0, 0, "doc-1", none,
    [some (.str "_txn:atr-7"), some (.str "txn-1"), some (.str "attempt-1"),
      some (.str "staged"), some (.str "default"), some (.str "_default._default"),
      some (.obj [("CAS", .str "0x10"), ("revid", .str "3"), ("exptime", .num 0)]),
      some (.str "replace"),
      some (.obj [("CAS", .str "0x20"), ("revid", .str "4"), ("exptime", .num 0),
        ("value_crc32c", .str "0xabc")]),
      some (.str "0xdef"), none, some (.obj [("some", .str "thing")])],
    false⟩

/-- A lookup result of a document without a `txn` xattr: only `$document` and the body are
present. -/
def plain_lookup : result :=
  ⟨0, 42, 0, 0, "doc-2", none,
    [none, none, none, none, none, none, none, none,
      some (.obj [("CAS", .str "0x20"), ("revid", .str "4"), ("exptime", .num 0),
        ("value_crc32c", .str "0xabc")]),
      none, none, some (.obj [("some", .str "thing")])],
    false⟩

/-- A lookup result with twelve slots whose restore slot is an object without members. -/
def empty_restore_lookup : result :=
  ⟨0, 42, 0, 0, "doc-3", none,
    [none, none, none, none, none, none, some (.obj []), none, none, none, none,
      some (.obj [("some", .str "thing")])],
    false⟩

/-- A stand-in for `dump()` on the sample inputs: the members' keys, separated by commas. -/
def sample_dump : Json → String
  | .obj members => ",".intercalate (members.map Prod.fst)
  | _ => "null"

/-- A string for what a read past the end of `splits` yields on the sample inputs. -/
def sample_past_end : String :=
  "past-the-end"

end couchbase.transactions

namespace couchbase

/-! ## The key/value facade of `collection.cxx` -/

/-- The status `LCB_SUCCESS` of libcouchbase. -/
def LCB_SUCCESS : Nat := 0

/-- The status `LCB_ERR_DOCUMENT_NOT_FOUND` of libcouchbase. -/
def LCB_ERR_DOCUMENT_NOT_FOUND : Nat := 301

/-- The store operations of libcouchbase. -/
inductive lcb_STORE_OPERATION where
  | LCB_STORE_UPSERT
  | LCB_STORE_ADD
  | LCB_STORE_REPLACE
  | LCB_STORE_APPEND
  | LCB_STORE_PREPEND
  deriving DecidableEq, Repr

/-- A store command as filled in by `collection::store`. -/
structure lcb_CMDSTORE where
  operation : lcb_STORE_OPERATION
  key : String
  value : String
  cas : Nat
  scope : String
  collection : String
  deriving DecidableEq, Repr

/-- The part of a store response read by `store_callback`. -/
structure lcb_RESPSTORE where
  status : Nat
  cas : Nat
  key : String
  deriving DecidableEq, Repr

/-- A get command as filled in by `collection::get`. -/
structure lcb_CMDGET where
  key : String
  scope : String
  collection : String
  deriving DecidableEq, Repr

/-- The part of a get response read by `get_callback`. -/
structure lcb_RESPGET where
  status : Nat
  cas : Nat
  datatype : Nat
  flags : Nat
  key : String
  value : String
  deriving DecidableEq, Repr

/-- One slot of an `lcb_SUBDOCOPS` array, named after the libcouchbase call that fills it
and carrying the arguments of that call. -/
inductive lcb_SUBDOCOP where
  | get (flags : Nat) (path : String)
  | fulldoc_get (flags : Nat)
  | dict_upsert (flags : Nat) (path : String) (value : String)
  | dict_add (flags : Nat) (path : String) (value : String)
  | fulldoc_upsert (flags : Nat) (value : String)
  | fulldoc_add (flags : Nat) (value : String)
  deriving DecidableEq, Repr

/-- The flags argument of the call that built an operation. -/
def lcb_SUBDOCOP.flags : lcb_SUBDOCOP → Nat
  | get flags _ => flags
  | fulldoc_get flags => flags
  | dict_upsert flags _ _ => flags
  | dict_add flags _ _ => flags
  | fulldoc_upsert flags _ => flags
  | fulldoc_add flags _ => flags

/-- The path argument of the call that built an operation; the full-document calls take
no path. -/
def lcb_SUBDOCOP.path : lcb_SUBDOCOP → Option String
  | get _ path => some path
  | fulldoc_get _ => none
  | dict_upsert _ path _ => some path
  | dict_add _ path _ => some path
  | fulldoc_upsert _ _ => none
  | fulldoc_add _ _ => none

/-- The value argument of the call that built an operation; the lookups take no value. -/
def lcb_SUBDOCOP.value : lcb_SUBDOCOP → Option String
  | get _ _ => none
  | fulldoc_get _ => none
  | dict_upsert _ _ value => some value
  | dict_add _ _ value => some value
  | fulldoc_upsert _ value => some value
  | fulldoc_add _ value => some value

/-- A sub-document command: key, collection and the operations array (a slot that no call
has filled is `none`). -/
structure lcb_CMDSUBDOC where
  key : String
  scope : String
  collection : String
  ops : List (Option lcb_SUBDOCOP)
  deriving DecidableEq, Repr

/-- The part of a sub-document response read by `subdoc_callback`; `results[idx]` is the data
of `lcb_respsubdoc_result_value` at `idx`, `none` when it leaves the data pointer null. -/
structure lcb_RESPSUBDOC where
  status : Nat
  cas : Nat
  key : String
  results : List (Option String)
  deriving DecidableEq, Repr

/-- The libcouchbase instance as seen by the facade: for each command the status of
scheduling it and the response that `lcb_wait` hands to the installed callback. -/
structure lcb_INSTANCE where
  lcb_store : lcb_CMDSTORE → Nat × lcb_RESPSTORE
  lcb_get : lcb_CMDGET → Nat × lcb_RESPGET
  lcb_subdoc : lcb_CMDSUBDOC → Nat × lcb_RESPSUBDOC

/-- Modelled from the spec: the declaration of `couchbase::result` is not among the sources;
this is the default-constructed `result res;` of the facade functions: empty key, no value,
no values and zero scalar members (the tests read an empty key and a false `is_deleted` from
the result of a failed get). -/
def result.init : result :=
  ⟨0, 0, 0, 0, "", none, [], false⟩

/-- The callback `store_callback`: status, CAS and key of the response. -/
def store_callback (resp : lcb_RESPSTORE) (res : result) : result :=
  let res := { res with rc := resp.status }
  let res := { res with cas := resp.cas }
  { res with key := resp.key }

/-- The callback `get_callback`: the status always, and the other members only on success.
`parse` is `Json::parse`. -/
def get_callback (parse : String → Json) (resp : lcb_RESPGET) (res : result) : result :=
  let res := { res with rc := resp.status }
  if res.rc = LCB_SUCCESS then
    { res with
      cas := resp.cas, datatype := resp.datatype, flags := resp.flags, key := resp.key,
      value := some (parse resp.value) }
  else res

/-- The call `values.resize(len)` of `std::vector`: truncated, or padded with empty
optionals. -/
def resize (len : Nat) (values : List (Option Json)) : List (Option Json) :=
  values.take len ++ List.replicate (len - values.length) none

/-- The callback `subdoc_callback`: status, CAS and key, then one entry of `values` per result
of the response, assigned only where the response has data. -/
def subdoc_callback (parse : String → Json) (resp : lcb_RESPSUBDOC) (res : result) : result :=
  let res := { res with rc := resp.status }
  let res := { res with cas := resp.cas }
  let res := { res with key := resp.key }
  let len := resp.results.length
  let values := resize len res.values
  let values := (List.range len).foldl
    (fun values idx =>
      match resp.results[idx]? with
      | some (some data) => values.set idx (some (parse data))
      | _ => values)
    values
  { res with values := values }

/-- The class `collection`: the libcouchbase instance of its bucket and its names. -/
structure collection where
  lcb_ : lcb_INSTANCE
  scope_ : String
  name_ : String
  bucket_name_ : String

namespace collection

/-- The function `collection::get`. -/
def get (parse : String → Json) (c : collection) (id : String) : Except Failure result :=
  let cmd : lcb_CMDGET := ⟨id, c.scope_, c.name_⟩
  let res := result.init
  let (rc, resp) := c.lcb_.lcb_get cmd
  if rc ≠ LCB_SUCCESS then .error (.runtime_error "failed to get (sched) document" rc)
  else .ok (get_callback parse resp res)

/-- The command built by `collection::store`. -/
def store_cmd (c : collection) (operation : lcb_STORE_OPERATION) (id value : String)
    (cas : Nat) : lcb_CMDSTORE :=
  ⟨operation, id, value, cas, c.scope_, c.name_⟩

/-- The function `collection::store`. -/
def store (c : collection) (operation : lcb_STORE_OPERATION) (id value : String) (cas : Nat) :
    Except Failure result :=
  let cmd := c.store_cmd operation id value cas
  let res := result.init
  let (rc, resp) := c.lcb_.lcb_store cmd
  if rc ≠ LCB_SUCCESS then .error (.runtime_error "failed to store (sched) document" rc)
  else .ok (store_callback resp res)

/-- The function `collection::upsert`. -/
def upsert (c : collection) (id value : String) (cas : Nat) : Except Failure result :=
  c.store .LCB_STORE_UPSERT id value cas

/-- The function `collection::insert`. -/
def insert (c : collection) (id value : String) : Except Failure result :=
  c.store .LCB_STORE_ADD id value 0

/-- The function `collection::replace`. -/
def replace (c : collection) (id value : String) (cas : Nat) : Except Failure result :=
  c.store .LCB_STORE_REPLACE id value cas

end collection

end couchbase

namespace couchbase

/-! ## Sub-document commands -/

/-- The kinds of `mutate_in_spec`, those of the `switch` in `collection::mutate_in`. -/
inductive mutate_in_spec_type where
  | MUTATE_IN_UPSERT
  | MUTATE_IN_INSERT
  | MUTATE_IN_FULLDOC_UPSERT
  | MUTATE_IN_FULLDOC_INSERT
  deriving DecidableEq, Repr

/-- The members of `mutate_in_spec` read by `collection::mutate_in`. -/
structure mutate_in_spec where
  type_ : mutate_in_spec_type
  path_ : String
  value_ : String
  flags_ : Nat
  deriving DecidableEq, Repr

/-- The kinds of `lookup_in_spec`, those of the `switch` in `collection::lookup_in`. -/
inductive lookup_in_spec_type where
  | LOOKUP_IN_GET
  | LOOKUP_IN_FULLDOC_GET
  deriving DecidableEq, Repr

/-- The members of `lookup_in_spec` read by `collection::lookup_in`. -/
structure lookup_in_spec where
  type_ : lookup_in_spec_type
  path_ : String
  flags_ : Nat
  deriving DecidableEq, Repr

/-- The call `lcb_subdocops_create(&ops, capacity)`: an array of unfilled slots. -/
def lcb_subdocops_create (capacity : Nat) : List (Option lcb_SUBDOCOP) :=
  List.replicate capacity none

namespace collection

/-- One turn of the loop of `collection::mutate_in`: the call selected by the kind of the
spec fills slot `idx`, and `idx` is incremented. -/
def mutate_in_step (st : List (Option lcb_SUBDOCOP) × Nat) (spec : mutate_in_spec) :
    List (Option lcb_SUBDOCOP) × Nat :=
  match spec.type_ with
  | .MUTATE_IN_UPSERT =>
    (st.1.set st.2 (some (.dict_upsert spec.flags_ spec.path_ spec.value_)), st.2 + 1)
  | .MUTATE_IN_INSERT =>
    (st.1.set st.2 (some (.dict_add spec.flags_ spec.path_ spec.value_)), st.2 + 1)
  | .MUTATE_IN_FULLDOC_UPSERT =>
    (st.1.set st.2 (some (.fulldoc_upsert spec.flags_ spec.value_)), st.2 + 1)
  | .MUTATE_IN_FULLDOC_INSERT =>
    (st.1.set st.2 (some (.fulldoc_add spec.flags_ spec.value_)), st.2 + 1)

/-- The libcouchbase call that the `switch` of `collection::mutate_in` selects for a spec,
with the arguments it passes. -/
def mutate_in_op (spec : mutate_in_spec) : lcb_SUBDOCOP :=
  match spec.type_ with
  | .MUTATE_IN_UPSERT => .dict_upsert spec.flags_ spec.path_ spec.value_
  | .MUTATE_IN_INSERT => .dict_add spec.flags_ spec.path_ spec.value_
  | .MUTATE_IN_FULLDOC_UPSERT => .fulldoc_upsert spec.flags_ spec.value_
  | .MUTATE_IN_FULLDOC_INSERT => .fulldoc_add spec.flags_ spec.value_

/-- The operations array built by `collection::mutate_in` before the command is scheduled. -/
def mutate_in_ops (specs : List mutate_in_spec) : List (Option lcb_SUBDOCOP) :=
  (specs.foldl mutate_in_step (lcb_subdocops_create specs.length, 0)).1

/-- The function `collection::mutate_in`. -/
def mutate_in (parse : String → Json) (c : collection) (id : String)
    (specs : List mutate_in_spec) : Except Failure result :=
  let cmd : lcb_CMDSUBDOC := ⟨id, c.scope_, c.name_, mutate_in_ops specs⟩
  let res := result.init
  let (rc, resp) := c.lcb_.lcb_subdoc cmd
  if rc ≠ LCB_SUCCESS then .error (.runtime_error "failed to mutate (sched) sub-document" rc)
  else .ok (subdoc_callback parse resp res)

/-- One turn of the loop of `collection::lookup_in`. -/
def lookup_in_step (st : List (Option lcb_SUBDOCOP) × Nat) (spec : lookup_in_spec) :
    List (Option lcb_SUBDOCOP) × Nat :=
  match spec.type_ with
  | .LOOKUP_IN_GET => (st.1.set st.2 (some (.get spec.flags_ spec.path_)), st.2 + 1)
  | .LOOKUP_IN_FULLDOC_GET => (st.1.set st.2 (some (.fulldoc_get spec.flags_)), st.2 + 1)

/-- The operations array built by `collection::lookup_in`. -/
def lookup_in_ops (specs : List lookup_in_spec) : List (Option lcb_SUBDOCOP) :=
  (specs.foldl lookup_in_step (lcb_subdocops_create specs.length, 0)).1

/-- The function `collection::lookup_in`. -/
def lookup_in (parse : String → Json) (c : collection) (id : String)
    (specs : List lookup_in_spec) : Except Failure result :=
  let cmd : lcb_CMDSUBDOC := ⟨id, c.scope_, c.name_, lookup_in_ops specs⟩
  let res := result.init
  let (rc, resp) := c.lcb_.lcb_subdoc cmd
  if rc ≠ LCB_SUCCESS then .error (.runtime_error "failed to lookup (sched) sub-document" rc)
  else .ok (subdoc_callback parse resp res)

end collection

/-! ## `cluster::bucket` -/

/-- The instance pool, reduced to its capacity. -/
structure pool where
  max_size : Nat
  deriving DecidableEq, Repr

/-- The call `clone(max_size)` of an instance pool. -/
def pool.clone (_p : pool) (max_size : Nat) : pool :=
  ⟨max_size⟩

/-- A `std::shared_ptr<T>`: the address of the object it points to, and that object. Two
pointers to equal objects at different addresses are different pointers. -/
structure shared_ptr (α : Type) where
  address : Nat
  object : α
  deriving DecidableEq, Repr

/-- The class `bucket` as `cluster::bucket` sees it: the arguments of its constructor. -/
structure bucket where
  instance_pool_ : pool
  name_ : String
  default_kv_timeout_ : Nat
  deriving DecidableEq, Repr

/-- The function `bucket::name`. -/
def bucket.name (b : bucket) : String :=
  b.name_

/-- Modelled from the spec: the constructor of `bucket` is not among the sources; it keeps
the pool, the name and the timeout it is given, and throws a `std::runtime_error` when the
server has no bucket of that name (the tests read the name back and expect the exception
for an unknown bucket). -/
def bucket.create (has_bucket : String → Bool) (instance_pool : pool) (name : String)
    (kv_timeout : Nat) : Except Failure bucket :=
  if has_bucket name then .ok ⟨instance_pool, name, kv_timeout⟩
  else .error (.runtime_error "failed to open bucket" 0)

/-- The class `cluster`: the members of the constructors' initialiser lists and the list of
open buckets. -/
structure cluster where
  cluster_address_ : String
  user_name_ : String
  password_ : String
  max_bucket_instances_ : Nat
  kv_timeout_ : Option Nat
  instance_pool_ : pool
  open_buckets_ : List (shared_ptr bucket)
  deriving DecidableEq, Repr

namespace cluster

/-- The function `cluster::default_kv_timeout`: dereferences `kv_timeout_`; the dereference
of an empty optional is a failure. -/
def default_kv_timeout (c : cluster) : Except Failure Nat :=
  match c.kv_timeout_ with
  | some t => .ok t
  | none => .error .empty_optional

/-- The function `cluster::bucket`: the pointer to the first open bucket of that name if
there is one; otherwise the pool is cloned, `swap_available` is called on the pool of the
cluster and the clone, a new bucket is constructed on the clone at the address
`new_address` that `new` hands out, and the pointer to it is appended to the list of open
buckets. The class `pool` is not among the sources: `swap_available` is a parameter, the two
pools after the call. The result is the returned pointer and the cluster after the call. -/
def bucket (has_bucket : String → Bool) (swap_available : pool → pool → Bool → pool × pool)
    (new_address : Nat) (c : cluster) (name : String) :
    Except Failure (shared_ptr couchbase.bucket × cluster) :=
  match c.open_buckets_.find? (fun b => b.object.name == name) with
  | some b => .ok (b, c)
  | none => do
    let bucket_pool := c.instance_pool_.clone c.max_bucket_instances_
    let swapped := swap_available c.instance_pool_ bucket_pool true
    let timeout ← c.default_kv_timeout
    let created ← couchbase.bucket.create has_bucket swapped.2 name timeout
    let b : shared_ptr couchbase.bucket := ⟨new_address, created⟩
    pure (b, { c with instance_pool_ := swapped.1, open_buckets_ := c.open_buckets_ ++ [b] })

end cluster

end couchbase

namespace couchbase

/-! ## Sample inputs -/

/-- A stand-in for `Json::parse` on the sample inputs: the text as a JSON string. -/
def sample_parse (text : String) : Json :=
  .str text

/-- A libcouchbase instance that schedules every command; it holds the single document
`doc-1` with CAS 77, every other key is not found. -/
def sample_instance : lcb_INSTANCE where
  lcb_store := fun cmd =>
    (LCB_SUCCESS, ⟨LCB_SUCCESS, 78, cmd.key⟩)
  lcb_get := fun cmd =>
    if cmd.key = "doc-1" then (LCB_SUCCESS, ⟨LCB_SUCCESS, 77, 0, 0, cmd.key, "body"⟩)
    else (LCB_SUCCESS, ⟨LCB_ERR_DOCUMENT_NOT_FOUND, 0, 0, 0, cmd.key, ""⟩)
  lcb_subdoc := fun cmd =>
    if cmd.key = "doc-1" then (LCB_SUCCESS, ⟨LCB_SUCCESS, 77, cmd.key, [some "thing", none]⟩)
    else (LCB_SUCCESS, ⟨LCB_ERR_DOCUMENT_NOT_FOUND, 0, cmd.key, []⟩)

/-- The default collection of the bucket `default` on the sample instance. -/
def sample_collection : collection :=
  ⟨sample_instance, "_default", "_default", "default"⟩

/-- A connected cluster without open buckets. -/
def sample_cluster : cluster :=
  ⟨"couchbase://localhost", "Administrator", "password", 10, some 2500000, ⟨4⟩, []⟩

/-- A server whose only bucket is `default`. -/
def sample_has_bucket (name : String) : Bool :=
  name == "default"

/-- A `swap_available` that moves the capacity of the first pool to the second. -/
def sample_swap_available (p q : pool) (_flag : Bool) : pool × pool :=
  (⟨0⟩, ⟨p.max_size + q.max_size⟩)

end couchbase

namespace couchbase

/-! ## Cluster objects: copy construction and `operator==` -/

/-- The copy constructor `cluster(const cluster&)`: the address, the credentials and
`max_bucket_instances_` are copied and the instance pool is cloned; `kv_timeout_` is not in
the initialiser list and the list of open buckets starts empty. -/
def cluster.copy (c : cluster) : cluster :=
  ⟨c.cluster_address_, c.user_name_, c.password_, c.max_bucket_instances_, none,
    c.instance_pool_.clone c.max_bucket_instances_, []⟩

/-- The cluster objects alive in memory; the address of an object is its position. -/
structure cluster_memory where
  objects : List cluster
  deriving DecidableEq, Repr

namespace cluster_memory

/-- Construction of a cluster object: it is placed in storage that no live object occupies,
and its address is returned with the new memory. -/
def construct (m : cluster_memory) (c : cluster) : cluster_memory × Nat :=
  (⟨m.objects ++ [c]⟩, m.objects.length)

/-- The declaration `cluster copy = *c;` for the object at address `src`: the copy
constructor runs on that object; there is nothing to copy at an address that holds no
object. -/
def copy_construct (m : cluster_memory) (src : Nat) : Option (cluster_memory × Nat) :=
  match m.objects[src]? with
  | some c => some (m.construct c.copy)
  | none => none

end cluster_memory

/-- The operator `cluster::operator==`: `this == &other`, on the addresses of the two
objects. -/
def cluster.operator_eq (this other : Nat) : Bool :=
  this == other

namespace transactions

/-- The setter `transaction_get_result::cas(uint64_t cas)`; the argument is converted to
`uint64_t`. -/
def transaction_get_result.set_cas (d : transaction_get_result) (cas : Nat) :
    transaction_get_result :=
  { d with cas := cas % 2 ^ 64 }

/-- A document as read inside a transaction: staged by attempt `attempt-1`, read with CAS
1616. -/
def sample_get_result : transaction_get_result :=
  ⟨("default", "_default", "_default"), "some", "doc-1", 1616,
    ⟨some "_txn:atr-7", some "default", some "_default", some "_default", some "txn-1",
      some "attempt-1", some "staged", some "0x10", some "3", some 0, some "0xdef",
      some "replace", some (.obj []), false⟩,
    some ⟨some "0x20", some "4", some 0, some "0xabc"⟩⟩

end transactions

end couchbase

namespace couchbase.transactions

/-! ## The staged-mutation log (`staged_mutation.hxx`)

The header declares the classes; the member functions are defined outside the sources at
hand and are modelled from the specification of the staged-mutation log. -/

/-- The enumeration `staged_mutation_type`. -/
inductive staged_mutation_type where
  | INSERT
  | REMOVE
  | REPLACE
  deriving DecidableEq, Repr

/-- The part of `transaction_document` that the log reads: the collection (bucket, scope and
collection names), the id and the CAS of the document at stage time. -/
structure transaction_document where
  collection_ : String × String × String
  id_ : String
  cas_ : Nat
  deriving DecidableEq, Repr

/-- The class `staged_mutation`: document, kind and staged content. -/
structure staged_mutation where
  doc_ : transaction_document
  type_ : staged_mutation_type
  content_ : Json

/-- The class `staged_mutation_queue`: the vector `queue_`. -/
structure staged_mutation_queue where
  queue_ : List staged_mutation

/-- The entry is for the document `id` of `collection`. -/
def staged_mutation.has_key (collection : String × String × String) (id : String)
    (m : staged_mutation) : Bool :=
  m.doc_.collection_ == collection && m.doc_.id_ == id

/-- The last element satisfying `p` is replaced by `f` of it, or dropped when `f` gives
nothing; a list without such an element is unchanged. -/
def update_last {α : Type} (p : α → Bool) (f : α → Option α) : List α → List α
  | [] => []
  | x :: xs =>
    if xs.any p then x :: update_last p f xs
    else if p x then
      match f x with
      | some y => y :: xs
      | none => xs
    else x :: xs

namespace staged_mutation_queue

/-- Modelled from the spec: the body of `staged_mutation_queue::empty` is not among the
sources; the log is empty when it has no entry. -/
def empty (q : staged_mutation_queue) : Bool :=
  q.queue_.isEmpty

/-- Modelled from the spec: `find(collection, id)` is not among the sources; the index keyed
by (collection, id) returns the last entry of the key, the live entry, or none. -/
def find (q : staged_mutation_queue) (collection : String × String × String) (id : String) :
    Option staged_mutation :=
  (q.queue_.filter (staged_mutation.has_key collection id)).getLast?

/-- Modelled from the spec: the body of `staged_mutation_queue::add` is not among the sources;
`add` appends, and enforces consolidation against the live entry of the same key: an insert
after a remove makes the entry a replace with the new content and the original document
(and CAS); a replace after an insert keeps the insert with the content replaced; a remove
after an insert drops the entry; a remove after a replace makes the entry a remove without
content; a replace after a replace updates the content in place. -/
def add (q : staged_mutation_queue) (mutation : staged_mutation) : staged_mutation_queue :=
  let same_key := staged_mutation.has_key mutation.doc_.collection_ mutation.doc_.id_
  match q.find mutation.doc_.collection_ mutation.doc_.id_ with
  | none => ⟨q.queue_ ++ [mutation]⟩
  | some live =>
    match live.type_, mutation.type_ with
    | .REMOVE, .INSERT =>
      ⟨update_last same_key (fun e => some ⟨e.doc_, .REPLACE, mutation.content_⟩) q.queue_⟩
    | .INSERT, .REPLACE =>
      ⟨update_last same_key (fun e => some ⟨e.doc_, .INSERT, mutation.content_⟩) q.queue_⟩
    | .INSERT, .REMOVE =>
      ⟨update_last same_key (fun _ => none) q.queue_⟩
    | .REPLACE, .REMOVE =>
      ⟨update_last same_key (fun e => some ⟨e.doc_, .REMOVE, Json.null⟩) q.queue_⟩
    | .REPLACE, .REPLACE =>
      ⟨update_last same_key (fun e => some ⟨e.doc_, .REPLACE, mutation.content_⟩) q.queue_⟩
    | _, _ => ⟨q.queue_ ++ [mutation]⟩

/-- A sequence of `add()` calls, in order. -/
def add_all (q : staged_mutation_queue) (mutations : List staged_mutation) :
    staged_mutation_queue :=
  mutations.foldl add q

/-- Modelled from the spec: `extract()` (`extract_to` in the header, whose body is not among
the sources) returns the entries in insertion order. -/
def extract (q : staged_mutation_queue) : List staged_mutation :=
  q.queue_

end staged_mutation_queue

/-- Modelled from the spec: the unstaging of one entry at commit: the body of the document is set to the staged
content (and the `txn` xattr cleared), or the document is deleted. -/
inductive unstage_action where
  | set_body (doc : transaction_document) (content : Json)
  | delete_document (doc : transaction_document)

/-- Modelled from the spec: the unstage of one staged entry; an insert or a replace sets the
body to the staged content, a remove deletes the document. -/
def staged_mutation.unstage (m : staged_mutation) : unstage_action :=
  match m.type_ with
  | .INSERT => .set_body m.doc_ m.content_
  | .REPLACE => .set_body m.doc_ m.content_
  | .REMOVE => .delete_document m.doc_

/-- Modelled from the spec: the body of `staged_mutation_queue::commit` is not among the
sources; each staged entry is unstaged, in the order of the log. -/
def staged_mutation_queue.commit (q : staged_mutation_queue) : List unstage_action :=
  q.extract.map staged_mutation.unstage

end couchbase.transactions

namespace couchbase.transactions

/-- The document `doc-a` of the default collection, staged at CAS 5. -/
def sample_doc_a : transaction_document :=
  ⟨("default", "_default", "_default"), "doc-a", 5⟩

/-- The document `doc-b` of the default collection, staged at CAS 8. -/
def sample_doc_b : transaction_document :=
  ⟨("default", "_default", "_default"), "doc-b", 8⟩

end couchbase.transactions

namespace couchbase.transactions

/-! ## The cleanup queue (`atr_cleanup_entry.hxx`)

The header declares `atr_cleanup_entry`, `compare_atr_entries` and `atr_cleanup_queue`; the
member functions are defined outside the sources at hand and are modelled from the
specification of the cleanup queue. Times are ticks of the steady clock. -/

/-- The class `atr_cleanup_entry`: the data members other than the pointers to the cleanup
service and to the ATR entry. -/
structure atr_cleanup_entry where
  atr_id_ : String
  attempt_id_ : String
  atr_collection_ : String × String × String
  min_start_time_ : Nat
  check_if_expired_ : Bool
  deriving DecidableEq, Repr

/-- Modelled from the spec: the body of `atr_cleanup_entry::ready` is not among the sources;
an entry is ready when its `min_start_time` is at most `now()` (the header comments `pop` as
"only if the front entry's min_start_time_ is before now"). -/
def atr_cleanup_entry.ready (e : atr_cleanup_entry) (now : Nat) : Bool :=
  e.min_start_time_ ≤ now

/-- Modelled from the spec: the body of `compare_atr_entries::operator()` is not among the
sources; the queue is ordered by `min_start_time` ascending, so the comparison of the
priority queue, which puts the greatest element on top, is "starts later". -/
def compare_atr_entries (lhs rhs : atr_cleanup_entry) : Bool :=
  lhs.min_start_time_ > rhs.min_start_time_

/-- The calls `top()` and `pop()` of `std::priority_queue` with the comparison `comp`: an
element that `comp` puts below no other element, and the remaining elements. -/
def priority_queue_pop {α : Type} (comp : α → α → Bool) : List α → Option (α × List α)
  | [] => none
  | x :: xs =>
    match priority_queue_pop comp xs with
    | none => some (x, [])
    | some (y, ys) => if comp x y then some (y, x :: ys) else some (x, xs)

/-- The class `atr_cleanup_queue`: the elements of its priority queue. -/
structure atr_cleanup_queue where
  queue_ : List atr_cleanup_entry
  deriving DecidableEq, Repr

namespace atr_cleanup_queue

/-- Modelled from the spec: the body of `atr_cleanup_queue::pop` is not among the sources; it
returns the head of the queue and removes it, with `check_time` only if the head is ready at
`now`; otherwise it returns nothing and the queue is as before. The result is the returned
entry and the queue after the call. -/
def pop (q : atr_cleanup_queue) (now : Nat) (check_time : Bool) :
    Option atr_cleanup_entry × atr_cleanup_queue :=
  match priority_queue_pop compare_atr_entries q.queue_ with
  | none => (none, q)
  | some (top, rest) =>
    if !check_time || top.ready now then (some top, ⟨rest⟩) else (none, q)

/-- Modelled from the spec: the body of `atr_cleanup_queue::push` is not among the sources;
the entry is queued unless an entry with the same dedup key (`atr_id`, `attempt_id`) is
queued already. -/
def push (q : atr_cleanup_queue) (entry : atr_cleanup_entry) : atr_cleanup_queue :=
  if q.queue_.any (fun e => e.atr_id_ == entry.atr_id_ && e.attempt_id_ == entry.attempt_id_)
  then q
  else ⟨entry :: q.queue_⟩

/-- Modelled from the spec: the body of `atr_cleanup_queue::size` is not among the sources;
the number of queued entries. -/
def size (q : atr_cleanup_queue) : Nat :=
  q.queue_.length

end atr_cleanup_queue

/-- A call on the cleanup queue: a push of an entry or a pop at some time. -/
inductive cleanup_queue_call where
  | push (entry : atr_cleanup_entry)
  | pop (now : Nat) (check_time : Bool)
  deriving DecidableEq, Repr

/-- The queue after a call. -/
def atr_cleanup_queue.call (q : atr_cleanup_queue) : cleanup_queue_call → atr_cleanup_queue
  | .push entry => q.push entry
  | .pop now check_time => (q.pop now check_time).2

/-- The queue after a sequence of calls, in order. -/
def atr_cleanup_queue.calls (q : atr_cleanup_queue) (cs : List cleanup_queue_call) :
    atr_cleanup_queue :=
  cs.foldl atr_cleanup_queue.call q

/-- A cleanup queue with three entries that start at 30, 10 and 20. -/
def sample_cleanup_queue : atr_cleanup_queue :=
  ⟨[⟨"_txn:atr-1", "attempt-1", ("default", "_default", "_default"), 30, true⟩,
    ⟨"_txn:atr-2", "attempt-2", ("default", "_default", "_default"), 10, true⟩,
    ⟨"_txn:atr-3", "attempt-3", ("default", "_default", "_default"), 20, true⟩]⟩

end couchbase.transactions

namespace couchbase.transactions

/-! ## The ATR manager

No source of the ATR manager is at hand; it is modelled from the specification of the ATR
document and of the operations `set_pending`, `append_doc_record`, `set_state` and
`read_entry`. -/

/-- Modelled from the spec: the states `st` of an attempt in an ATR entry (the type
`attempt_state` is declared outside the sources at hand). -/
inductive attempt_state where
  | PENDING
  | ABORTED
  | COMMITTED
  | COMPLETED
  | ROLLED_BACK
  deriving DecidableEq, Repr

/-- Modelled from the spec: a doc-record of an ATR entry: bucket, scope, collection and id of
a staged document. -/
structure doc_record where
  bkt : String
  scp : String
  coll : String
  id : String
  deriving DecidableEq, Repr

/-- Modelled from the spec: an entry of the ATR document: the state `st`, the start and
state-change timestamps `tst` and `tsc`, the expiry window `exp`, and the doc-records of the
staged inserts, replaces and removes. -/
structure atr_entry where
  st : attempt_state
  tst : Nat
  tsc : Nat
  exp : Nat
  ins : List doc_record
  rep : List doc_record
  rem : List doc_record
  deriving DecidableEq, Repr

/-- Modelled from the spec: the ATR document, the map `attempts` from attempt id to entry. -/
structure atr_document where
  attempts : List (String × atr_entry)
  deriving DecidableEq, Repr

/-- Modelled from the spec: the failures of the ATR manager: the `ATR_CONFLICT` of
`set_pending`, and the two ways in which `set_state` applies no transition. -/
inductive atr_failure where
  | ATR_CONFLICT
  | ENTRY_NOT_FOUND
  | ILLEGAL_TRANSITION
  deriving DecidableEq, Repr

/-- Modelled from the spec: the legal transitions of the state of an attempt: `PENDING` to
`ABORTED` or `COMMITTED`, `COMMITTED` to `COMPLETED`, `ABORTED` to `ROLLED_BACK`. -/
def legal_transition : attempt_state → attempt_state → Bool
  | .PENDING, .ABORTED => true
  | .PENDING, .COMMITTED => true
  | .COMMITTED, .COMPLETED => true
  | .ABORTED, .ROLLED_BACK => true
  | _, _ => false

/-- The entry of an attempt in a list of attempts, if any. -/
def lookup_attempt (attempt_id : String) : List (String × atr_entry) → Option atr_entry
  | [] => none
  | (k, e) :: rest => if k = attempt_id then some e else lookup_attempt attempt_id rest

/-- The entries of the attempt are replaced by `f` of them. -/
def update_attempt (attempt_id : String) (f : atr_entry → atr_entry) :
    List (String × atr_entry) → List (String × atr_entry)
  | [] => []
  | (k, e) :: rest =>
    (k, if k = attempt_id then f e else e) :: update_attempt attempt_id f rest

namespace atr_document

/-- Modelled from the spec: `read_entry(atr, attempt_id)`, the full entry or absent. -/
def read_entry (atr : atr_document) (attempt_id : String) : Option atr_entry :=
  lookup_attempt attempt_id atr.attempts

/-- Modelled from the spec: `set_pending(atr, attempt_id, expiry)`, the sub-document insert
of the entry of the attempt with state `PENDING`, stamped with the server time `hlc`; it
fails with `ATR_CONFLICT` when the entry exists already. -/
def set_pending (atr : atr_document) (attempt_id : String) (expiry : Nat) (hlc : Nat) :
    Except atr_failure atr_document :=
  match atr.read_entry attempt_id with
  | some _ => .error .ATR_CONFLICT
  | none => .ok ⟨atr.attempts ++ [(attempt_id, ⟨.PENDING, hlc, hlc, expiry, [], [], []⟩)]⟩

/-- Modelled from the spec: `append_doc_record(atr, attempt_id, kind, doc)`, the atomic
array-append of the doc-record to `ins`, `rep` or `rem` of the entry of the attempt. -/
def append_doc_record (atr : atr_document) (attempt_id : String)
    (kind : staged_mutation_type) (doc : doc_record) : Except atr_failure atr_document :=
  match atr.read_entry attempt_id with
  | none => .error .ENTRY_NOT_FOUND
  | some _ =>
    .ok ⟨update_attempt attempt_id
      (fun e =>
        match kind with
        | .INSERT => { e with ins := e.ins ++ [doc] }
        | .REPLACE => { e with rep := e.rep ++ [doc] }
        | .REMOVE => { e with rem := e.rem ++ [doc] })
      atr.attempts⟩

/-- Modelled from the spec: `set_state(atr, attempt_id, new_state)`, the upsert of the state
of the entry of the attempt, stamped with the server time `hlc`; legal transitions only: the
call fails, and writes nothing, when the entry is absent or the move from its state to
`new_state` is not a legal transition. -/
def set_state (atr : atr_document) (attempt_id : String) (new_state : attempt_state)
    (hlc : Nat) : Except atr_failure atr_document :=
  match atr.read_entry attempt_id with
  | none => .error .ENTRY_NOT_FOUND
  | some e =>
    if legal_transition e.st new_state then
      .ok ⟨update_attempt attempt_id (fun e => { e with st := new_state, tsc := hlc })
        atr.attempts⟩
    else .error .ILLEGAL_TRANSITION

end atr_document

/-- A call of the ATR manager that writes to the ATR document, with the server time of the
call. -/
inductive atr_call where
  | set_pending (attempt_id : String) (expiry : Nat) (hlc : Nat)
  | append_doc_record (attempt_id : String) (kind : staged_mutation_type) (doc : doc_record)
  | set_state (attempt_id : String) (new_state : attempt_state) (hlc : Nat)
  deriving DecidableEq, Repr

/-- The ATR document after a call; a call that fails leaves the document as it is. -/
def atr_document.call (atr : atr_document) : atr_call → atr_document
  | .set_pending attempt_id expiry hlc =>
    match atr.set_pending attempt_id expiry hlc with
    | .ok next => next
    | .error _ => atr
  | .append_doc_record attempt_id kind doc =>
    match atr.append_doc_record attempt_id kind doc with
    | .ok next => next
    | .error _ => atr
  | .set_state attempt_id new_state hlc =>
    match atr.set_state attempt_id new_state hlc with
    | .ok next => next
    | .error _ => atr

/-- The ATR document after a sequence of calls, in order. -/
def atr_document.calls (atr : atr_document) (cs : List atr_call) : atr_document :=
  cs.foldl atr_document.call atr

/-- An ATR document with a committed and a pending attempt. -/
def sample_atr : atr_document :=
  ⟨[("attempt-1", ⟨.COMMITTED, 100, 120, 15000, [], [⟨"default", "_default", "_default",
      "doc-a"⟩], []⟩),
    ("attempt-2", ⟨.PENDING, 110, 110, 15000, [], [], []⟩)]⟩

end couchbase.transactions

namespace couchbase.transactions

/-! ## Error classification

No source of the error classification is at hand; it is modelled from the error taxonomy of
the specification. -/

/-- Modelled from the spec: the kinds of the error taxonomy. -/
inductive error_kind where
  | DOC_NOT_FOUND
  | DOC_EXISTS
  | CAS_MISMATCH
  | WRITE_WRITE_CONFLICT
  | ATR_FULL
  | ATTEMPT_EXPIRED
  | FORWARD_COMPAT_FAILURE
  | TRANSIENT
  | HARD_FAILURE
  deriving DecidableEq, Repr

/-- Modelled from the spec: the four flags carried by a classified error. -/
structure error_class where
  retry : Bool
  rollback : Bool
  commit_ambiguous : Bool
  final : Bool
  deriving DecidableEq, Repr

/-- Modelled from the spec: the state of the attempt that the classification looks at: whether the failure is raised
inside `commit()`, whether the attempt has crossed the point of no return (its ATR entry is
`COMMITTED`), and whether the forward-compatibility matrix asks for a retry. -/
structure classification_context where
  inside_commit : Bool
  past_commit_point : Bool
  forward_compat_retry : Bool
  deriving DecidableEq, Repr

/-- Modelled from the spec: the classification of a surfaced failure, by the rows of the
error taxonomy: after the `COMMITTED` point every surfaced failure is `commit_ambiguous`;
before it `DOC_NOT_FOUND` is retry and rollback inside commit and rollback outside,
`DOC_EXISTS` (an insert on an existing key that neither is a read of the own write nor goes
to conflict resolution) rolls the attempt back, `CAS_MISMATCH`, `WRITE_WRITE_CONFLICT` and
`ATR_FULL` are retry and rollback, `ATTEMPT_EXPIRED` is rollback only,
`FORWARD_COMPAT_FAILURE` is retry and rollback or final by the matrix, `TRANSIENT` is retry
and rollback, and `HARD_FAILURE` is final. -/
def classify (kind : error_kind) (ctx : classification_context) : error_class :=
  if ctx.past_commit_point then ⟨false, false, true, false⟩
  else
    match kind with
    | .DOC_NOT_FOUND =>
      if ctx.inside_commit then ⟨true, true, false, false⟩ else ⟨false, true, false, false⟩
    | .DOC_EXISTS => ⟨false, true, false, false⟩
    | .CAS_MISMATCH => ⟨true, true, false, false⟩
    | .WRITE_WRITE_CONFLICT => ⟨true, true, false, false⟩
    | .ATR_FULL => ⟨true, true, false, false⟩
    | .ATTEMPT_EXPIRED => ⟨false, true, false, false⟩
    | .FORWARD_COMPAT_FAILURE =>
      if ctx.forward_compat_retry then ⟨true, true, false, false⟩
      else ⟨false, false, false, true⟩
    | .TRANSIENT => ⟨true, true, false, false⟩
    | .HARD_FAILURE => ⟨false, false, false, true⟩

end couchbase.transactions

namespace couchbase.transactions

/-! ## A transactional insert

No source of the attempt context or of the transaction context is at hand; the insert of an
attempt with its conflict resolver, its rollback and the handling of a failed operation by
the transaction context are modelled from the specification of the attempt state machine,
of the error taxonomy and of the transaction context. The model is of the states of the
documents and of one ATR document, which has room for the entry of the attempt; the
document store answers every call, so the kinds `TRANSIENT`, `HARD_FAILURE` and `ATR_FULL`
of the taxonomy do not arise in it. -/

/-- Modelled from the spec: the `txn` xattr of a staged document, reduced to the attempt that
owns the stage (`id.atmpt`), the kind of the stage (`op.type`) and the staged content
(`op.stgd`). -/
structure txn_xattr where
  atmpt : String
  op_type : staged_mutation_type
  stgd : Json

/-- Modelled from the spec: a document of the store: its body (none while the document is
only the stage of an insert), its CAS, and its `txn` xattr while another attempt has it
staged. -/
structure stored_document where
  body : Option Json
  cas : Nat
  txn : Option txn_xattr

/-- Modelled from the spec: what one transaction sees and writes: the documents of its
collection, with the stages of other attempts, and the ATR document with the entries of all
attempts. The stages of the attempt itself are held by its staged-mutation log. -/
structure txn_world where
  docs : List (String × stored_document)
  atr : atr_document

/-- The document with the given id, if any. -/
def lookup_doc (id : String) : List (String × stored_document) → Option stored_document
  | [] => none
  | (k, d) :: rest => if k = id then some d else lookup_doc id rest

/-- The documents after the write of the document `id`: replaced by `d`, or deleted when `d`
is none. -/
def store_doc (id : String) (d : Option stored_document) :
    List (String × stored_document) → List (String × stored_document)
  | [] => []
  | (k, v) :: rest =>
    if k = id then
      match d with
      | some next => (k, next) :: rest
      | none => rest
    else (k, v) :: store_doc id d rest

/-- Modelled from the spec: what the conflict resolver decides on a document staged by
another attempt. -/
inductive resolution where
  | help_forward
  | help_rollback
  | write_write_conflict
  deriving DecidableEq, Repr

/-- Modelled from the spec: the conflict resolver, on the `txn` xattr of another attempt, at
server time `hlc` after the bounded wait: it reads the ATR entry of that attempt; a
`COMMITTED` attempt is helped forward, an `ABORTED` one is helped to roll back; a `PENDING`
attempt that is not yet expired is a write-write conflict; when the entry is absent or the
attempt has expired (`tst + exp` is before `hlc`) the resolver proceeds as if it were rolled
back. The spec does not name the states `COMPLETED` and `ROLLED_BACK` here; they are taken
with `COMMITTED` and `ABORTED`, as `get` takes them. -/
def resolve_conflict (atr : atr_document) (hlc : Nat) (x : txn_xattr) : resolution :=
  match atr.read_entry x.atmpt with
  | none => .help_rollback
  | some e =>
    match e.st with
    | .COMMITTED => .help_forward
    | .COMPLETED => .help_forward
    | .ABORTED => .help_rollback
    | .ROLLED_BACK => .help_rollback
    | .PENDING => if e.tst + e.exp < hlc then .help_rollback else .write_write_conflict

/-- Modelled from the spec: the help forward, the unstage of just this document: an insert or
a replace sets the body to the staged content and clears the `txn` xattr, a remove deletes
the document (none). The write gives the document its next CAS. -/
def stored_document.help_forward (d : stored_document) (x : txn_xattr) :
    Option stored_document :=
  match x.op_type with
  | .REMOVE => none
  | _ => some ⟨some x.stgd, d.cas + 1, none⟩

/-- Modelled from the spec: the help to roll back: the pre-transaction state is restored, the
`txn` xattr cleared; a document that is only the stage of an insert is deleted (none). The
write gives the document its next CAS. -/
def stored_document.help_rollback (d : stored_document) : Option stored_document :=
  match d.body with
  | some body => some ⟨some body, d.cas + 1, none⟩
  | none => none

/-- Modelled from the spec: the state of one attempt: its id, its collection, its deadline
(`tst + expiration`), its expiry window and its staged-mutation log. -/
structure attempt_context where
  attempt_id : String
  collection : String × String × String
  deadline : Nat
  expiration : Nat
  staged : staged_mutation_queue

namespace attempt_context

/-- Modelled from the spec: `ensure_atr_pending()`, called on the first mutation: the entry
of the attempt is written with state `PENDING` unless the attempt has its entry already. -/
def ensure_atr_pending (a : attempt_context) (atr : atr_document) (hlc : Nat) : atr_document :=
  match atr.read_entry a.attempt_id with
  | some _ => atr
  | none => atr.call (.set_pending a.attempt_id a.expiration hlc)

/-- Modelled from the spec: the write of the stage of an insert: the doc-record is appended to
the ATR entry and the staged insert, with the CAS `cas` of the stage, is added to the log. -/
def stage_insert (a : attempt_context) (docs : List (String × stored_document))
    (atr : atr_document) (id : String) (content : Json) (cas : Nat) :
    Except error_kind staged_mutation × attempt_context × txn_world :=
  let staged : staged_mutation := ⟨⟨a.collection, id, cas⟩, .INSERT, content⟩
  let record : doc_record := ⟨a.collection.1, a.collection.2.1, a.collection.2.2, id⟩
  (.ok staged, { a with staged := a.staged.add staged },
    ⟨docs, atr.call (.append_doc_record a.attempt_id .INSERT record)⟩)

/-- Modelled from the spec: `insert(id, content)` of an attempt at time `now` and server time
`hlc`: the deadline is checked first (`ATTEMPT_EXPIRED`); the insert requires that the
attempt has no staged entry for the document (`DOC_EXISTS`); the ATR entry is made pending
before the first stage is written; the write of the stage requires that the document does
not exist. A document without `txn` xattr that has a body exists (`DOC_EXISTS`). On a
document with the `txn` xattr of another attempt the conflict resolver is invoked: a
write-write conflict fails the insert (`WRITE_WRITE_CONFLICT`); otherwise the document is
helped forward or rolled back, and the insert goes on with the document that this leaves:
`DOC_EXISTS` when there is one, the stage when there is none. The result is the error or
the staged entry, with the attempt and the world after the call. -/
def insert (a : attempt_context) (w : txn_world) (now hlc : Nat) (id : String)
    (content : Json) (cas : Nat) :
    Except error_kind staged_mutation × attempt_context × txn_world :=
  if a.deadline < now then (.error .ATTEMPT_EXPIRED, a, w)
  else if (a.staged.find a.collection id).isSome then (.error .DOC_EXISTS, a, w)
  else
    let atr := a.ensure_atr_pending w.atr hlc
    match lookup_doc id w.docs with
    | none => a.stage_insert w.docs atr id content cas
    | some d =>
      match d.txn with
      | none =>
        if d.body.isSome then (.error .DOC_EXISTS, a, ⟨w.docs, atr⟩)
        else a.stage_insert w.docs atr id content cas
      | some x =>
        match resolve_conflict atr hlc x with
        | .write_write_conflict => (.error .WRITE_WRITE_CONFLICT, a, ⟨w.docs, atr⟩)
        | .help_forward =>
          match d.help_forward x with
          | some next => (.error .DOC_EXISTS, a, ⟨store_doc id (some next) w.docs, atr⟩)
          | none => a.stage_insert (store_doc id none w.docs) atr id content cas
        | .help_rollback =>
          match d.help_rollback with
          | some next => (.error .DOC_EXISTS, a, ⟨store_doc id (some next) w.docs, atr⟩)
          | none => a.stage_insert (store_doc id none w.docs) atr id content cas

/-- Modelled from the spec: `rollback()` of an attempt: `PENDING` to `ABORTED`, the restore of
every staged entry, `ABORTED` to `ROLLED_BACK`. A stage of the attempt is held by its log
and never touches the documents of the world, so the restore leaves them as they are. -/
def rollback (a : attempt_context) (w : txn_world) (hlc : Nat) : txn_world :=
  let atr := w.atr.call (.set_state a.attempt_id .ABORTED hlc)
  let atr := atr.call (.set_state a.attempt_id .ROLLED_BACK hlc)
  { w with atr := atr }

end attempt_context

end couchbase.transactions

namespace couchbase.transactions.transaction_get_result

/-! ## Copies of a `transaction_get_result` -/

/-- The copy constructor `transaction_get_result(const transaction_get_result& doc)`. -/
def copy (doc : transaction_get_result) : transaction_get_result :=
  ⟨doc.coll, doc.value, doc.id, doc.cas, doc.links, doc.metadata⟩

/-- The static `create_from(transaction_get_result& document, Content content)`, with
`Content` the `std::string` that `value_` stores: the links are rebuilt from the fourteen
accessors of the links of the document, and the result is constructed from the id, the
content, the CAS, the collection, these links and the metadata of the document. -/
def create_from_document (document : transaction_get_result) (content : String) :
    transaction_get_result :=
  let links : transaction_links :=
    ⟨document.links.atr_id, document.links.atr_bucket_name, document.links.atr_scope_name,
      document.links.atr_collection_name, document.links.staged_transaction_id,
      document.links.staged_attempt_id, document.links.staged_content,
      document.links.cas_pre_txn, document.links.revid_pre_txn, document.links.exptime_pre_txn,
      document.links.crc32_of_staging, document.links.op, document.links.forward_compat,
      document.links.is_deleted⟩
  ⟨document.coll, content, document.id, document.cas, links, document.metadata⟩

/-- The operator `operator=(const transaction_get_result& other)` on the object at address
`this`, for `other` at address `other_addr`: unless the two are the same object, the
collection, the value, the id and the links are assigned (`collection_` is a reference, so
the collection it refers to takes the value of the collection of `other`). -/
def assign (this other_addr : Nat) (target other : transaction_get_result) :
    transaction_get_result :=
  if this ≠ other_addr then
    { target with coll := other.coll, value := other.value, id := other.id, links := other.links }
  else target

end couchbase.transactions.transaction_get_result

namespace couchbase.transactions

/-- A document read with CAS 7 outside any transaction: no links but the empty
forward-compatibility object. -/
def sample_plain_result : transaction_get_result :=
  ⟨("default", "_default", "_default"), "thing", "doc-2", 7,
    ⟨none, none, none, none, none, none, none, none, none, none, none, none, some (.obj []),
      false⟩,
    some ⟨some "0x21", some "5", some 0, some "0xabd"⟩⟩

end couchbase.transactions
namespace couchbase

namespace transactions.transaction_get_result

/-! ## The JSON types `create_from` expects in the lookup slots -/

/-- The content of slot `i`, absent when the slot is absent or past the end. -/
def slot (res : result) (i : Nat) : Option Json :=
  (res.values[i]?).join

end transactions.transaction_get_result
end couchbase

namespace couchbase.transactions

end couchbase.transactions
namespace couchbase

/-! ## `connect` and the main constructor of `cluster` -/

/-- The two settings of a libcouchbase instance that `connect` reads and writes with
`lcb_cntl`, both `uint32_t` counts of microseconds: `LCB_CNTL_OP_TIMEOUT` and
`LCB_CNTL_PERSISTENCE_TIMEOUT_FLOOR`. -/
structure lcb_st where
  op_timeout : Nat
  persistence_timeout_floor : Nat
  deriving DecidableEq, Repr

/-- The answers of libcouchbase to the calls of `connect`: `lcb_create` gives a status and
the new instance with its default settings, the other calls give a status. -/
structure lcb_library where
  lcb_create : String → Nat × lcb_st
  lcbauth_add_pass : String → String → Nat
  lcb_connect : Nat
  lcb_wait : Nat
  lcb_get_bootstrap_status : Nat

/-- The function `connect` of `cluster.cxx`: the instance is created, authenticated and
connected; with a `kv_timeout` given, its count of microseconds converted to `uint32_t` is
set as the op timeout, and also as the persistence timeout floor when it is above the floor
read before; without one, `kv_timeout` is set from the op timeout of the instance. The
calls of `lcb_cntl` are taken to succeed (their status is not looked at). The result is the
instance and `kv_timeout` (passed by reference) after the call. -/
def connect (lib : lcb_library) (cluster_address user_name password : String)
    (kv_timeout : Option Int) : Except Failure (lcb_st × Option Int) :=
  let created := lib.lcb_create cluster_address
  if created.1 ≠ LCB_SUCCESS then
    .error (.runtime_error "failed to create libcouchbase instance: " created.1)
  else if lib.lcbauth_add_pass user_name password ≠ LCB_SUCCESS then
    .error (.runtime_error "failed to build credentials for authenticator: "
      (lib.lcbauth_add_pass user_name password))
  else if lib.lcb_connect ≠ LCB_SUCCESS then
    .error (.runtime_error "failed to connect (sched) libcouchbase instance: " lib.lcb_connect)
  else if lib.lcb_wait ≠ LCB_SUCCESS then
    .error (.runtime_error "failed to connect (wait) libcouchbase instance: " lib.lcb_wait)
  else
    let lcb := created.2
    let configured : lcb_st × Option Int :=
      match kv_timeout with
      | some t =>
        let op_timeout := (t % (2 ^ 32 : Int)).toNat
        let durability_timeout := lcb.persistence_timeout_floor
        let lcb := { lcb with op_timeout := op_timeout }
        if op_timeout > durability_timeout then
          ({ lcb with persistence_timeout_floor := op_timeout }, some t)
        else (lcb, some t)
      | none =>
        let op_timeout := lcb.op_timeout
        (lcb, some (op_timeout : Int))
    if lib.lcb_get_bootstrap_status ≠ LCB_SUCCESS then
      .error (.runtime_error "bootstrap failed with error: " lib.lcb_get_bootstrap_status)
    else .ok configured

/-- Modelled from the spec: the class `pool` is not among the sources; the `get()` of a pool
that holds no instance is taken to call the factory of the pool and to hand out the instance
it makes (the constructor of `cluster` says that its `get()` connects). -/
def pool.get {α : Type} (_p : pool) (factory : Unit → Except Failure α) : Except Failure α :=
  factory ()

/-- The main constructor `cluster(cluster_address, user_name, password, opts)`, with
`max_instances`, `max_bucket_instances` and `kv_timeout` the values of the accessors of
`opts`: the members are initialised, `kv_timeout_` from the options, the pool is made with
the factory that calls `connect` on the members (`kv_timeout_` by reference), and
`instance_pool_->release(instance_pool_->get())` connects the first instance. A timeout is a
count of microseconds that is not negative. -/
def cluster.create (lib : lcb_library) (cluster_address user_name password : String)
    (max_instances max_bucket_instances : Nat) (kv_timeout : Option Nat) :
    Except Failure cluster := do
  let instance_pool : pool := ⟨max_instances⟩
  let connected ← instance_pool.get
    (fun _ => connect lib cluster_address user_name password (kv_timeout.map Int.ofNat))
  pure ⟨cluster_address, user_name, password, max_bucket_instances,
    connected.2.map Int.toNat, instance_pool, []⟩

/-- A library on which every call succeeds; a new instance has the op timeout 2500000 and
the persistence timeout floor 1500000. -/
def sample_library : lcb_library :=
  ⟨fun _ => (LCB_SUCCESS, ⟨2500000, 1500000⟩), fun _ _ => LCB_SUCCESS, LCB_SUCCESS,
    LCB_SUCCESS, LCB_SUCCESS⟩

/-! ## `make_uuid` of the game server example -/

/-- The table `v` of `make_uuid`. -/
def make_uuid_v : List Char :=
  "0123456789abcdef".toList

/-- The table `dash` of `make_uuid`. -/
def make_uuid_dash : List Bool :=
  [false, false, false, false, true, false, true, false, true, false, true, false, false,
    false, false, false]

/-- One turn of the loop of `make_uuid`, with `draws` the successive values of `dist(rng)`,
each between 0 and 15: a dash when `dash[i]` is set, then two digits. -/
def make_uuid_step (draws : Nat → Fin 16) (res : List Char) (i : Nat) : List Char :=
  let res := if make_uuid_dash.getD i false then res ++ "-".toList else res
  let res := res ++ [make_uuid_v.getD (draws (2 * i)).val '0']
  res ++ [make_uuid_v.getD (draws (2 * i + 1)).val '0']

/-- The function `make_uuid` of `game_server.cxx`: sixteen turns of the loop. -/
def make_uuid (draws : Nat → Fin 16) : String :=
  String.mk ((List.range 16).foldl (make_uuid_step draws) [])

end couchbase
namespace couchbase

/-- A sequence of draws that counts up from 0 and starts again after 15. -/
def sample_draws (n : Nat) : Fin 16 :=
  ⟨n % 16, Nat.mod_lt n (by decide)⟩

end couchbase

/-! # Theorems -/

namespace couchbase
/-- A bind in `Except` returns exactly when both of its stages return. -/
theorem bind_ok_inv {ε α β : Type} (x : Except ε α) (f : α → Except ε β) (b : β) :
    (x >>= f) = .ok b ↔ ∃ a, x = .ok a ∧ f a = .ok b := by
  cases x <;> simp [bind, Except.bind]

/-- The vector access returns exactly the slots that exist. -/
theorem values_at_ok (res : result) (i : Nat) (slot : Option Json) :
    res.values_at i = .ok slot ↔ res.values[i]? = some slot := by
  unfold result.values_at
  cases res.values[i]? <;> simp

namespace transactions
namespace transaction_get_result

/-- A string slot that decodes is the decoded field seen as a JSON string: absent when the
field is absent, and otherwise the string of the field. -/
theorem string_slot_ok_inv (res : result) (i : Nat) (a : Option String)
    (h : string_slot res i = .ok a) : res.values[i]? = some (a.map Json.str) := by
  simp only [string_slot, bind_ok_inv, values_at_ok] at h
  obtain ⟨slot, hslot, hdec⟩ := h
  cases slot with
  | none =>
    simp [pure, Except.pure] at hdec
    rw [hslot, ← hdec]
    rfl
  | some v =>
    cases v <;> simp [Json.get_string, bind, Except.bind, pure, Except.pure] at hdec
    rw [hslot, ← hdec]
    rfl

/-- Inversion of `create_from`: when it returns, every slot decoder has returned and the
result is assembled from their values. -/
theorem create_from_ok_inv (dump : Json → String) (past_end : String) (coll : String × String × String) (id : String)
    (res : result) (r : transaction_get_result) (h : create_from dump past_end coll id res = .ok r) :
    ∃ a0 a1 a2 a3 a4 a5 a6 a7 a8 a9 s10 s11,
      string_slot res 0 = .ok a0 ∧ string_slot res 1 = .ok a1 ∧ string_slot res 2 = .ok a2 ∧
      string_slot res 3 = .ok a3 ∧ string_slot res 4 = .ok a4 ∧
      scope_collection_slot past_end res = .ok a5 ∧ restore_slot res = .ok a6 ∧
      string_slot res 7 = .ok a7 ∧ document_slot res = .ok a8 ∧ string_slot res 9 = .ok a9 ∧
      res.values[10]? = some s10 ∧ res.values[11]? = some s11 ∧
      r = ⟨coll, (match s11 with | some v => dump v | none => ""), id, res.cas,
            ⟨a0, a4, a5.1, a5.2, a1, a2, a3, a6.1, a6.2.1, a6.2.2, a9, a7,
              (match s10 with | some v => some v | none => some (Json.obj [])), res.is_deleted⟩,
            some ⟨a8.1, a8.2.1, a8.2.2.1, a8.2.2.2⟩⟩ := by
  simp only [create_from, bind_ok_inv, values_at_ok] at h
  obtain ⟨a0, h0, a1, h1, a2, h2, a3, h3, a4, h4, a5, h5, a6, h6, a7, h7, a8, h8, a9, h9,
    f10, ⟨s10, h10, hf10⟩, c11, ⟨s11, h11, hc11⟩, hr⟩ := h
  refine ⟨a0, a1, a2, a3, a4, a5, a6, a7, a8, a9, s10, s11, h0, h1, h2, h3, h4, h5, h6, h7, h8,
    h9, h10, h11, ?_⟩
  cases s10 <;> cases s11 <;> simp [pure, Except.pure] at hf10 hc11 hr <;>
    subst hf10 <;> subst hc11 <;> exact hr.symm

end transaction_get_result
end transactions
end couchbase

namespace couchbase

/-- An input without a separator is a single token. -/
theorem split_chars_no_sep (pred : Char → Bool) (l : List Char)
    (h : ∀ c ∈ l, pred c = false) : split_chars pred l = [l] := by
  induction l with
  | nil => rfl
  | cons c cs ih =>
    have hc : pred c = false := h c (List.mem_cons_self c cs)
    have hcs : ∀ d ∈ cs, pred d = false := fun d hd => h d (List.mem_cons_of_mem c hd)
    simp [split_chars, hc, ih hcs]

/-- The first token ends at the first separator; the rest is split on its own. -/
theorem split_chars_append (pred : Char → Bool) (l r : List Char) (d : Char)
    (h : ∀ c ∈ l, pred c = false) (hd : pred d = true) :
    split_chars pred (l ++ d :: r) = l :: split_chars pred r := by
  induction l with
  | nil => simp [split_chars, hd]
  | cons c cs ih =>
    have hc : pred c = false := h c (List.mem_cons_self c cs)
    have hcs : ∀ e ∈ cs, pred e = false := fun e he => h e (List.mem_cons_of_mem c he)
    simp [split_chars, hc, ih hcs]

/-- Two dot-free strings joined by a dot split into exactly those two strings. -/
theorem split_dotted (s c : String) (hs : '.' ∉ s.data) (hc : '.' ∉ c.data) :
    split (fun ch => ch == '.') (s ++ "." ++ c) = [s, c] := by
  have hs' : ∀ ch ∈ s.data, (fun ch => ch == '.') ch = false := by
    intro ch hch
    simp only [beq_eq_false_iff_ne, ne_eq]
    intro heq
    exact hs (heq ▸ hch)
  have hc' : ∀ ch ∈ c.data, (fun ch => ch == '.') ch = false := by
    intro ch hch
    simp only [beq_eq_false_iff_ne, ne_eq]
    intro heq
    exact hc (heq ▸ hch)
  have hdata : (s ++ "." ++ c).data = s.data ++ '.' :: c.data := by
    simp [String.data_append]
  unfold split
  rw [hdata, split_chars_append _ _ _ _ hs' (by simp), split_chars_no_sep _ _ hc']
  rfl

namespace transactions.transaction_get_result

/-- Slot 5 holding `s.c`: scope `s` and collection `c`. -/
theorem scope_collection_slot_dotted (past_end : String) (res : result) (s c : String) (hs : '.' ∉ s.data)
    (hc : '.' ∉ c.data) (h5 : res.values[5]? = some (some (Json.str (s ++ "." ++ c)))) :
    scope_collection_slot past_end res = .ok (some s, some c) := by
  simp [scope_collection_slot, result.values_at, h5, Json.get_string, split_dotted s c hs hc,
    splits_at, bind, Except.bind, pure, Except.pure]

/-- Slot 5 absent: no scope and no collection. -/
theorem scope_collection_slot_absent (past_end : String) (res : result) (h5 : res.values[5]? = some none) :
    scope_collection_slot past_end res = .ok (none, none) := by
  simp [scope_collection_slot, result.values_at, h5, bind, Except.bind, pure, Except.pure]

/-- Slot 6 holding the three members with their expected types decodes to them. -/
theorem restore_slot_members (res : result) (members : List (String × Json))
    (cas revid : String) (exptime : Nat)
    (h6 : res.values[6]? = some (some (Json.obj members)))
    (hcas : Json.lookup "CAS" members = some (Json.str cas))
    (hrevid : Json.lookup "revid" members = some (Json.str revid))
    (hexp : Json.lookup "exptime" members = some (Json.num exptime))
    (hrange : exptime < 2 ^ 32) :
    restore_slot res = .ok (some cas, some revid, some exptime) := by
  simp [restore_slot, result.values_at, h6, Json.at_key, hcas, hrevid, hexp, Json.get_string,
    Json.get_uint32, bind, Except.bind, pure, Except.pure]
  omega

/-- Slot 6 absent: none of the three pre-transaction fields. -/
theorem restore_slot_absent (res : result) (h6 : res.values[6]? = some none) :
    restore_slot res = .ok (none, none, none) := by
  simp [restore_slot, result.values_at, h6, bind, Except.bind, pure, Except.pure]

end transactions.transaction_get_result
end couchbase

namespace couchbase.transactions.transaction_get_result

/-- C1, counterexample: on the twelve-slot lookup result whose restore slot is the empty
object, `create_from` raises a JSON type error, so it returns no result at all. -/
theorem create_from_fails_on_empty_restore :
    empty_restore_lookup.values.length = 12 ∧
    create_from sample_dump sample_past_end ("default", "_default", "_default") "doc-3" empty_restore_lookup
      = .error (.type_error 302) ∧
    ¬ ∃ r, create_from sample_dump sample_past_end ("default", "_default", "_default") "doc-3"
        empty_restore_lookup = .ok r ∧ r.id = "doc-3" ∧ r.cas = empty_restore_lookup.cas := by
  have h : create_from sample_dump sample_past_end ("default", "_default", "_default") "doc-3"
      empty_restore_lookup = .error (.type_error 302) := rfl
  refine ⟨rfl, h, ?_⟩
  rintro ⟨r, hr, -⟩
  rw [h] at hr
  cases hr

/-- C1 (amended): for every id and every lookup result with twelve value slots, every result
`r` returned by `create_from` has `r.id = id`, `r.cas = res.cas` and as content the
serialization of slot 11 when present and the empty string otherwise; and when none of the
`txn` xattr slots (0 to 7, 9, 10) is present and the `$document` slot 8 decodes,
`create_from` does return such a result: the body with the document's CAS. -/
theorem create_from_id_cas_content (dump : Json → String) (past_end : String) (coll : String × String × String)
    (id : String) (res : result) (h12 : res.values.length = 12) :
    (∀ r, create_from dump past_end coll id res = .ok r →
      r.id = id ∧ r.cas = res.cas ∧
      r.value = (match res.values[11]? with | some (some body) => dump body | _ => "")) ∧
    ((∀ i, i < 11 → i ≠ 8 → res.values[i]? = some none) →
      (∃ md, document_slot res = .ok md) →
      ∃ r, create_from dump past_end coll id res = .ok r ∧ r.id = id ∧ r.cas = res.cas ∧
        r.value = (match res.values[11]? with | some (some body) => dump body | _ => "")) := by
  have key : ∀ r, create_from dump past_end coll id res = .ok r →
      r.id = id ∧ r.cas = res.cas ∧
      r.value = (match res.values[11]? with | some (some body) => dump body | _ => "") := by
    intro r h
    obtain ⟨a0, a1, a2, a3, a4, a5, a6, a7, a8, a9, s10, s11, -, -, -, -, -, -, -, -, -, -, -,
      h11, hr⟩ := create_from_ok_inv dump past_end coll id res r h
    subst hr
    rw [h11]
    cases s11 <;> exact ⟨rfl, rfl, rfl⟩
  refine ⟨key, ?_⟩
  intro habsent ⟨md, hmd⟩
  have h11 : ∃ s11, res.values[11]? = some s11 :=
    ⟨res.values[11], List.getElem?_eq_getElem (by omega)⟩
  obtain ⟨s11, h11⟩ := h11
  have hex : ∃ r, create_from dump past_end coll id res = .ok r := by
    have h0 := habsent 0 (by decide) (by decide)
    have h1 := habsent 1 (by decide) (by decide)
    have h2 := habsent 2 (by decide) (by decide)
    have h3 := habsent 3 (by decide) (by decide)
    have h4 := habsent 4 (by decide) (by decide)
    have h5 := habsent 5 (by decide) (by decide)
    have h6 := habsent 6 (by decide) (by decide)
    have h7 := habsent 7 (by decide) (by decide)
    have h9 := habsent 9 (by decide) (by decide)
    have h10 := habsent 10 (by decide) (by decide)
    cases s11 <;>
      simp [create_from, string_slot, scope_collection_slot, restore_slot, hmd,
        result.values_at, h0, h1, h2, h3, h4, h5, h6, h7, h9, h10, h11, bind, Except.bind, pure,
        Except.pure]
  obtain ⟨r, hr⟩ := hex
  exact ⟨r, hr, key r hr⟩

/-- Witness of C1 (amended) on the lookup result of a document without `txn` xattr. -/
theorem create_from_id_cas_content_witness :
    ∃ r, create_from sample_dump sample_past_end ("default", "_default", "_default") "doc-2" plain_lookup
        = .ok r ∧ r.id = "doc-2" ∧ r.cas = 42 ∧ r.value = "some" := by
  obtain ⟨r, hr, hid, hcas, hval⟩ :=
    (create_from_id_cas_content sample_dump sample_past_end ("default", "_default", "_default") "doc-2"
      plain_lookup rfl).2
      (by
        intro i hi h8
        have hcases : i = 0 ∨ i = 1 ∨ i = 2 ∨ i = 3 ∨ i = 4 ∨ i = 5 ∨ i = 6 ∨ i = 7 ∨ i = 9 ∨
            i = 10 := by omega
        rcases hcases with h | h | h | h | h | h | h | h | h | h <;> subst h <;> rfl)
      ⟨_, rfl⟩
  exact ⟨r, hr, hid, hcas, hval⟩

end couchbase.transactions.transaction_get_result

namespace couchbase.transactions.transaction_get_result

/-- C2: in a result returned by `create_from`, the links fields `atr_id`,
`staged_transaction_id`, `staged_attempt_id`, `staged_content`, `atr_bucket_name`, `op` and
`crc32_of_staging` are present exactly when lookup slots 0, 1, 2, 3, 4, 7 and 9 are, and then
equal the string of the slot (the slot is the field seen as a JSON string);
`links.is_deleted` is `res.is_deleted`. -/
theorem create_from_links_string_fields (dump : Json → String) (past_end : String)
    (coll : String × String × String) (id : String) (res : result)
    (r : transaction_get_result) (h : create_from dump past_end coll id res = .ok r) :
    res.values[0]? = some (r.links.atr_id.map Json.str) ∧
    res.values[1]? = some (r.links.staged_transaction_id.map Json.str) ∧
    res.values[2]? = some (r.links.staged_attempt_id.map Json.str) ∧
    res.values[3]? = some (r.links.staged_content.map Json.str) ∧
    res.values[4]? = some (r.links.atr_bucket_name.map Json.str) ∧
    res.values[7]? = some (r.links.op.map Json.str) ∧
    res.values[9]? = some (r.links.crc32_of_staging.map Json.str) ∧
    r.links.is_deleted = res.is_deleted := by
  obtain ⟨a0, a1, a2, a3, a4, a5, a6, a7, a8, a9, s10, s11, h0, h1, h2, h3, h4, -, -, h7, -, h9,
    -, -, hr⟩ := create_from_ok_inv dump past_end coll id res r h
  subst hr
  exact ⟨string_slot_ok_inv res 0 a0 h0, string_slot_ok_inv res 1 a1 h1,
    string_slot_ok_inv res 2 a2 h2, string_slot_ok_inv res 3 a3 h3,
    string_slot_ok_inv res 4 a4 h4, string_slot_ok_inv res 7 a7 h7,
    string_slot_ok_inv res 9 a9 h9, rfl⟩

/-- Witness of C2 on the lookup result of a staged document: `atr_id` and `op` are the
strings of slots 0 and 7. -/
theorem create_from_links_string_fields_witness :
    ∃ r, create_from sample_dump sample_past_end ("default", "_default", "_default") "doc-1" staged_lookup
        = .ok r ∧
      r.links.atr_id = some "_txn:atr-7" ∧ r.links.op = some "replace" ∧
      staged_lookup.values[0]? = some (r.links.atr_id.map Json.str) ∧
      staged_lookup.values[1]? = some (r.links.staged_transaction_id.map Json.str) ∧
      staged_lookup.values[2]? = some (r.links.staged_attempt_id.map Json.str) ∧
      staged_lookup.values[3]? = some (r.links.staged_content.map Json.str) ∧
      staged_lookup.values[4]? = some (r.links.atr_bucket_name.map Json.str) ∧
      staged_lookup.values[7]? = some (r.links.op.map Json.str) ∧
      staged_lookup.values[9]? = some (r.links.crc32_of_staging.map Json.str) ∧
      r.links.is_deleted = staged_lookup.is_deleted :=
  ⟨_, rfl, rfl, rfl,
    create_from_links_string_fields sample_dump sample_past_end ("default", "_default", "_default") "doc-1"
      staged_lookup _ rfl⟩

/-- C3: in a result returned by `create_from`, when slot 5 holds `s ++ "." ++ c` with no
`'.'` in `s` nor in `c`, `links.atr_scope_name` is `s` and `links.atr_collection_name` is
`c`; when slot 5 is absent both fields are absent. -/
theorem create_from_atr_scope_collection (dump : Json → String) (past_end : String)
    (coll : String × String × String) (id : String) (res : result)
    (r : transaction_get_result) (h : create_from dump past_end coll id res = .ok r) :
    (∀ s c : String, '.' ∉ s.data → '.' ∉ c.data →
      res.values[5]? = some (some (Json.str (s ++ "." ++ c))) →
      r.links.atr_scope_name = some s ∧ r.links.atr_collection_name = some c) ∧
    (res.values[5]? = some none →
      r.links.atr_scope_name = none ∧ r.links.atr_collection_name = none) := by
  obtain ⟨a0, a1, a2, a3, a4, a5, a6, a7, a8, a9, s10, s11, -, -, -, -, -, h5, -, -, -, -,
    -, -, hr⟩ := create_from_ok_inv dump past_end coll id res r h
  subst hr
  constructor
  · intro s c hs hc hslot
    rw [scope_collection_slot_dotted past_end res s c hs hc hslot] at h5
    cases h5
    exact ⟨rfl, rfl⟩
  · intro hslot
    rw [scope_collection_slot_absent past_end res hslot] at h5
    cases h5
    exact ⟨rfl, rfl⟩

/-- Witness of C3 on the lookup result of a staged document, whose slot 5 is
`_default._default`. -/
theorem create_from_atr_scope_collection_witness :
    ∃ r, create_from sample_dump sample_past_end ("default", "_default", "_default") "doc-1" staged_lookup
        = .ok r ∧
      r.links.atr_scope_name = some "_default" ∧ r.links.atr_collection_name = some "_default" :=
  ⟨_, rfl,
    (create_from_atr_scope_collection sample_dump sample_past_end ("default", "_default", "_default") "doc-1"
      staged_lookup _ rfl).1 "_default" "_default" (by decide) (by decide) rfl⟩

/-- C4: in a result returned by `create_from`, when slot 6 is an object whose members `CAS`
and `revid` are strings and whose member `exptime` is a number below `2 ^ 32`,
`links.cas_pre_txn`, `links.revid_pre_txn` and `links.exptime_pre_txn` are those three
members; when slot 6 is absent the three fields are absent. -/
theorem create_from_restore_fields (dump : Json → String) (past_end : String)
    (coll : String × String × String) (id : String) (res : result)
    (r : transaction_get_result) (h : create_from dump past_end coll id res = .ok r) :
    (∀ (members : List (String × Json)) (cas revid : String) (exptime : Nat),
      res.values[6]? = some (some (Json.obj members)) →
      Json.lookup "CAS" members = some (Json.str cas) →
      Json.lookup "revid" members = some (Json.str revid) →
      Json.lookup "exptime" members = some (Json.num exptime) → exptime < 2 ^ 32 →
      r.links.cas_pre_txn = some cas ∧ r.links.revid_pre_txn = some revid ∧
        r.links.exptime_pre_txn = some exptime) ∧
    (res.values[6]? = some none →
      r.links.cas_pre_txn = none ∧ r.links.revid_pre_txn = none ∧
        r.links.exptime_pre_txn = none) := by
  obtain ⟨a0, a1, a2, a3, a4, a5, a6, a7, a8, a9, s10, s11, -, -, -, -, -, -, h6, -, -, -,
    -, -, hr⟩ := create_from_ok_inv dump past_end coll id res r h
  subst hr
  constructor
  · intro members cas revid exptime hslot hcas hrevid hexp hrange
    rw [restore_slot_members res members cas revid exptime hslot hcas hrevid hexp hrange] at h6
    cases h6
    exact ⟨rfl, rfl, rfl⟩
  · intro hslot
    rw [restore_slot_absent res hslot] at h6
    cases h6
    exact ⟨rfl, rfl, rfl⟩

/-- Witness of C4 on the lookup result of a staged document. -/
theorem create_from_restore_fields_witness :
    ∃ r, create_from sample_dump sample_past_end ("default", "_default", "_default") "doc-1" staged_lookup
        = .ok r ∧
      r.links.cas_pre_txn = some "0x10" ∧ r.links.revid_pre_txn = some "3" ∧
        r.links.exptime_pre_txn = some 0 :=
  ⟨_, rfl,
    (create_from_restore_fields sample_dump sample_past_end ("default", "_default", "_default") "doc-1"
      staged_lookup _ rfl).1
      [("CAS", .str "0x10"), ("revid", .str "3"), ("exptime", .num 0)] "0x10" "3" 0 rfl rfl rfl
      rfl (by decide)⟩

end couchbase.transactions.transaction_get_result

namespace couchbase

/-- The loop of `subdoc_callback` after `n` turns: the length is kept, and an entry below
`n` whose result has data is the parse of the data; all other entries are untouched. -/
theorem subdoc_values_loop (parse : String → Json) (results : List (Option String))
    (n : Nat) (values : List (Option Json)) :
    ((List.range n).foldl
      (fun values idx =>
        match results[idx]? with
        | some (some data) => values.set idx (some (parse data))
        | _ => values)
      values).length = values.length ∧
    ∀ i, ((List.range n).foldl
      (fun values idx =>
        match results[idx]? with
        | some (some data) => values.set idx (some (parse data))
        | _ => values)
      values)[i]? =
        if i < n ∧ i < values.length then
          (match results[i]? with
            | some (some data) => some (some (parse data))
            | _ => values[i]?)
        else values[i]? := by
  induction n with
  | zero => simp
  | succ n ih =>
    obtain ⟨ihlen, ihget⟩ := ih
    rw [List.range_succ, List.foldl_append]
    simp only [List.foldl_cons, List.foldl_nil]
    constructor
    · split <;> simp [ihlen]
    · intro i
      split
      · rename_i data hdata
        rw [List.getElem?_set]
        by_cases hin : n = i
        · subst hin
          simp [ihlen, hdata]
          split
          · rfl
          · rename_i h
            exact (List.getElem?_eq_none (by omega)).symm
        · simp only [hin, if_false, ihget]
          have : (i < n + 1 ∧ i < values.length) ↔ (i < n ∧ i < values.length) := by omega
          simp only [this]
      · rename_i hdata
        rw [ihget]
        by_cases hin : i = n
        · subst hin
          simp
        · have : (i < n + 1 ∧ i < values.length) ↔ (i < n ∧ i < values.length) := by omega
          simp only [this]

/-- The callback `subdoc_callback` on the default-constructed result. -/
theorem subdoc_callback_init (parse : String → Json) (resp : lcb_RESPSUBDOC) :
    subdoc_callback parse resp result.init =
      ⟨resp.status, resp.cas, 0, 0, resp.key, none, resp.results.map (Option.map parse),
        false⟩ := by
  unfold subdoc_callback
  simp only [result.init, resize, List.take_nil, List.length_nil, Nat.sub_zero, List.nil_append]
  congr 1
  obtain ⟨hlen, hget⟩ := subdoc_values_loop parse resp.results resp.results.length
    (List.replicate resp.results.length none)
  apply List.ext_getElem?
  intro i
  rw [hget]
  simp only [List.length_replicate, and_self, List.getElem?_map]
  by_cases hi : i < resp.results.length
  · simp only [hi, if_true]
    rw [List.getElem?_eq_getElem hi]
    cases hd : resp.results[i] with
    | none => simp [List.getElem?_replicate, hi]
    | some d => simp
  · simp only [hi, if_false]
    have : resp.results[i]? = none := List.getElem?_eq_none (by omega)
    simp [this, List.getElem?_replicate, hi]

end couchbase

namespace couchbase.collection

/-- Every branch of the `switch` fills slot `idx` and increments `idx`. -/
theorem mutate_in_step_eq (st : List (Option lcb_SUBDOCOP) × Nat) (spec : mutate_in_spec) :
    mutate_in_step st spec = (st.1.set st.2 (some (mutate_in_op spec)), st.2 + 1) := by
  unfold mutate_in_step mutate_in_op
  cases spec.type_ <;> rfl

/-- The loop of `mutate_in` started at `idx`: the slots from `idx` on, as far as the array
reaches, hold the operations of the specs in order; the others are untouched. -/
theorem mutate_in_fold (specs : List mutate_in_spec) :
    ∀ (ops : List (Option lcb_SUBDOCOP)) (idx : Nat),
      (specs.foldl mutate_in_step (ops, idx)).2 = idx + specs.length ∧
      (specs.foldl mutate_in_step (ops, idx)).1.length = ops.length ∧
      ∀ i, (specs.foldl mutate_in_step (ops, idx)).1[i]? =
        if idx ≤ i ∧ i < idx + specs.length ∧ i < ops.length then
          (specs[i - idx]?).map (fun spec => some (mutate_in_op spec))
        else ops[i]? := by
  induction specs with
  | nil =>
    intro ops idx
    refine ⟨rfl, rfl, ?_⟩
    intro i
    have : ¬ (idx ≤ i ∧ i < idx + ([] : List mutate_in_spec).length ∧ i < ops.length) := by
      simp only [List.length_nil]
      omega
    simp only [List.foldl_nil, this, if_false]
  | cons spec rest ih =>
    intro ops idx
    simp only [List.foldl_cons, mutate_in_step_eq]
    obtain ⟨h2, hlen, hget⟩ := ih (ops.set idx (some (mutate_in_op spec))) (idx + 1)
    refine ⟨?_, ?_, ?_⟩
    · rw [h2, List.length_cons]
      omega
    · rw [hlen, List.length_set]
    · intro i
      rw [hget, List.length_set, List.getElem?_set, List.length_cons]
      by_cases h1 : idx + 1 ≤ i ∧ i < idx + 1 + rest.length ∧ i < ops.length
      · have h3 : idx ≤ i ∧ i < idx + (rest.length + 1) ∧ i < ops.length := by omega
        have h4 : i - idx = (i - (idx + 1)) + 1 := by omega
        simp only [h1, h3, and_self, if_true, h4, List.getElem?_cons_succ]
      · simp only [h1, if_false]
        by_cases h5 : idx = i
        · subst h5
          by_cases h6 : idx < ops.length
          · have h7 : idx ≤ idx ∧ idx < idx + (rest.length + 1) ∧ idx < ops.length := by omega
            simp [h6, h7]
          · have h7 : ¬ (idx ≤ idx ∧ idx < idx + (rest.length + 1) ∧ idx < ops.length) := by
              omega
            have h8 : ops[idx]? = none := List.getElem?_eq_none (by omega)
            simp [h6, h8]
        · have h7 : ¬ (idx ≤ i ∧ i < idx + (rest.length + 1) ∧ i < ops.length) := by omega
          simp only [h5, h7, if_false]

/-- The operations array of `mutate_in` is the list of the operations of the specs. -/
theorem mutate_in_ops_eq (specs : List mutate_in_spec) :
    mutate_in_ops specs = specs.map (fun spec => some (mutate_in_op spec)) := by
  unfold mutate_in_ops lcb_subdocops_create
  obtain ⟨-, hlen, hget⟩ := mutate_in_fold specs (List.replicate specs.length none) 0
  apply List.ext_getElem?
  intro i
  rw [hget]
  by_cases hi : i < specs.length
  · simp [hi]
  · simp only [List.length_replicate, hi, and_false, false_and, if_false, List.getElem?_map]
    rw [List.getElem?_eq_none (by simp; omega), List.getElem?_eq_none (by omega)]
    rfl

end couchbase.collection

namespace couchbase.collection

/-- A scheduled store returns the default result updated by `store_callback`. -/
theorem store_scheduled (c : collection) (operation : lcb_STORE_OPERATION) (id value : String)
    (cas : Nat) (resp : lcb_RESPSTORE)
    (hsched : c.lcb_.lcb_store (c.store_cmd operation id value cas) = (LCB_SUCCESS, resp)) :
    c.store operation id value cas = .ok ⟨resp.status, resp.cas, 0, 0, resp.key, none, [], false⟩ := by
  simp [store, hsched, store_callback, result.init]

/-- C5: when `collection::get` is scheduled successfully it returns a result whose `rc` is
the status of the response; for a status other than success the key, CAS and value keep
their defaults (empty key, no value), for the status success they are those of the
response. -/
theorem get_result_of_response (parse : String → Json) (c : collection) (id : String)
    (resp : lcb_RESPGET)
    (hsched : c.lcb_.lcb_get ⟨id, c.scope_, c.name_⟩ = (LCB_SUCCESS, resp)) :
    ∃ r, c.get parse id = .ok r ∧ r.rc = resp.status ∧
      (resp.status ≠ LCB_SUCCESS →
        r.key = "" ∧ r.cas = result.init.cas ∧ r.value = none) ∧
      (resp.status = LCB_SUCCESS →
        r.key = resp.key ∧ r.cas = resp.cas ∧ r.value = some (parse resp.value)) := by
  refine ⟨get_callback parse resp result.init, ?_, ?_, ?_, ?_⟩
  · simp [get, hsched]
  · unfold get_callback
    simp only []
    split <;> rfl
  · intro hne
    simp [get_callback, hne, result.init]
  · intro heq
    simp [get_callback, heq]

/-- Witness of C5: a get of an unknown key on the sample collection returns status 301 with
an empty key and no value. -/
theorem get_result_of_response_witness :
    ∃ r, sample_collection.get sample_parse "unknown" = .ok r ∧ r.rc = 301 ∧
      (301 ≠ LCB_SUCCESS → r.key = "" ∧ r.cas = result.init.cas ∧ r.value = none) ∧
      (301 = LCB_SUCCESS → r.key = "unknown" ∧ r.cas = 0 ∧ r.value = some (sample_parse "")) :=
  get_result_of_response sample_parse sample_collection "unknown"
    ⟨LCB_ERR_DOCUMENT_NOT_FOUND, 0, 0, 0, "unknown", ""⟩ rfl

/-- C6: for every store response, whether to an insert, an upsert or a replace, the returned
result has the status, the CAS and the key of the response, and no value. -/
theorem store_result_of_response (c : collection) (id value : String) (cas : Nat)
    (resp : lcb_RESPSTORE) :
    (c.lcb_.lcb_store (c.store_cmd .LCB_STORE_ADD id value 0) = (LCB_SUCCESS, resp) →
      ∃ r, c.insert id value = .ok r ∧
        r.rc = resp.status ∧ r.cas = resp.cas ∧ r.key = resp.key ∧ r.value = none) ∧
    (c.lcb_.lcb_store (c.store_cmd .LCB_STORE_UPSERT id value cas) = (LCB_SUCCESS, resp) →
      ∃ r, c.upsert id value cas = .ok r ∧
        r.rc = resp.status ∧ r.cas = resp.cas ∧ r.key = resp.key ∧ r.value = none) ∧
    (c.lcb_.lcb_store (c.store_cmd .LCB_STORE_REPLACE id value cas) = (LCB_SUCCESS, resp) →
      ∃ r, c.replace id value cas = .ok r ∧
        r.rc = resp.status ∧ r.cas = resp.cas ∧ r.key = resp.key ∧ r.value = none) := by
  refine ⟨?_, ?_, ?_⟩ <;> intro hsched
  · exact ⟨_, store_scheduled c _ id value 0 resp hsched, rfl, rfl, rfl, rfl⟩
  · exact ⟨_, store_scheduled c _ id value cas resp hsched, rfl, rfl, rfl, rfl⟩
  · exact ⟨_, store_scheduled c _ id value cas resp hsched, rfl, rfl, rfl, rfl⟩

/-- Witness of C6: an insert on the sample collection returns the status, CAS and key of the
response and no value. -/
theorem store_result_of_response_witness :
    ∃ r, sample_collection.insert "doc-9" "content" = .ok r ∧
      r.rc = 0 ∧ r.cas = 78 ∧ r.key = "doc-9" ∧ r.value = none :=
  (store_result_of_response sample_collection "doc-9" "content" 0 ⟨0, 78, "doc-9"⟩).1 rfl

/-- C7: `insert` is `store` with `LCB_STORE_ADD` and CAS 0, `replace` is `store` with
`LCB_STORE_REPLACE` and `upsert` is `store` with `LCB_STORE_UPSERT`, both with the CAS of the
caller; the command that `store` schedules carries exactly the operation and the CAS it is
given, so an insert is scheduled with CAS 0 and a replace with the CAS of the caller. -/
theorem insert_replace_upsert_are_store (c : collection) (id value : String) (cas : Nat) :
    c.insert id value = c.store .LCB_STORE_ADD id value 0 ∧
    c.replace id value cas = c.store .LCB_STORE_REPLACE id value cas ∧
    c.upsert id value cas = c.store .LCB_STORE_UPSERT id value cas ∧
    (∀ operation cas0, (c.store_cmd operation id value cas0).operation = operation ∧
      (c.store_cmd operation id value cas0).cas = cas0) ∧
    (c.store_cmd .LCB_STORE_ADD id value 0).cas = 0 ∧
    (c.store_cmd .LCB_STORE_REPLACE id value cas).cas = cas :=
  ⟨rfl, rfl, rfl, fun _ _ => ⟨rfl, rfl⟩, rfl, rfl⟩

/-- C8, counterexample: for a full-document upsert spec with path `some`, the operation
built at index 0 is the full-document call with the flags and the value of the spec only; it
does not carry the path of the spec. -/
theorem mutate_in_fulldoc_has_no_path :
    mutate_in_ops [⟨.MUTATE_IN_FULLDOC_UPSERT, "some", "thing", 0⟩]
      = [some (.fulldoc_upsert 0 "thing")] ∧
    ¬ ∃ op, (mutate_in_ops [⟨.MUTATE_IN_FULLDOC_UPSERT, "some", "thing", 0⟩])[0]? = some (some op) ∧
      op.path = some "some" := by
  have h : mutate_in_ops [⟨.MUTATE_IN_FULLDOC_UPSERT, "some", "thing", 0⟩]
      = [some (.fulldoc_upsert 0 "thing")] := rfl
  refine ⟨h, ?_⟩
  rintro ⟨op, hop, hpath⟩
  rw [h] at hop
  simp at hop
  subst hop
  simp [lcb_SUBDOCOP.path] at hpath

/-- C8 (amended): `mutate_in` builds exactly `specs.size()` operations in the order of the
list; the operation at index `i` has the kind of `specs[i]` and carries its flags and value,
and its path for the kinds upsert and insert (the full-document operations are built without
a path). -/
theorem mutate_in_builds_ops (specs : List mutate_in_spec) :
    (mutate_in_ops specs).length = specs.length ∧
    ∀ (i : Nat) (hi : i < specs.length),
      ∃ op, (mutate_in_ops specs)[i]? = some (some op) ∧
        op.flags = specs[i].flags_ ∧ op.value = some specs[i].value_ ∧
        (specs[i].type_ = .MUTATE_IN_UPSERT →
          op = .dict_upsert specs[i].flags_ specs[i].path_ specs[i].value_) ∧
        (specs[i].type_ = .MUTATE_IN_INSERT →
          op = .dict_add specs[i].flags_ specs[i].path_ specs[i].value_) ∧
        (specs[i].type_ = .MUTATE_IN_FULLDOC_UPSERT →
          op = .fulldoc_upsert specs[i].flags_ specs[i].value_) ∧
        (specs[i].type_ = .MUTATE_IN_FULLDOC_INSERT →
          op = .fulldoc_add specs[i].flags_ specs[i].value_) := by
  rw [mutate_in_ops_eq]
  refine ⟨List.length_map _ _, ?_⟩
  intro i hi
  refine ⟨mutate_in_op specs[i], ?_, ?_⟩
  · simp [List.getElem?_map, List.getElem?_eq_getElem hi]
  · unfold mutate_in_op
    cases h : specs[i].type_ <;> simp [lcb_SUBDOCOP.flags, lcb_SUBDOCOP.value]

/-- Witness of C8 (amended) on an upsert of `some` followed by an insert of `another`: the
operation at index 1 is the dictionary add of the second spec. -/
theorem mutate_in_builds_ops_witness :
    ∃ op, (mutate_in_ops [⟨.MUTATE_IN_UPSERT, "some", "other thing", 0⟩,
        ⟨.MUTATE_IN_INSERT, "another", "field", 0⟩])[1]? = some (some op) ∧
      op = .dict_add 0 "another" "field" := by
  obtain ⟨op, hop, -, -, -, hadd, -, -⟩ :=
    (mutate_in_builds_ops [⟨.MUTATE_IN_UPSERT, "some", "other thing", 0⟩,
      ⟨.MUTATE_IN_INSERT, "another", "field", 0⟩]).2 1 (by decide)
  exact ⟨op, hop, hadd rfl⟩

/-- C9: for every sub-document response, to a lookup or to a mutation, the `values` of the
returned result have as many entries as the response has results, entry `i` is the parse of
the data of the response at `i` when there is data and is absent otherwise, and `value` is
absent. -/
theorem subdoc_values_of_response (parse : String → Json) (c : collection) (id : String)
    (resp : lcb_RESPSUBDOC) :
    (∀ specs : List lookup_in_spec,
      c.lcb_.lcb_subdoc ⟨id, c.scope_, c.name_, lookup_in_ops specs⟩ = (LCB_SUCCESS, resp) →
      ∃ r, c.lookup_in parse id specs = .ok r ∧ r.values.length = resp.results.length ∧
        (∀ (i : Nat) (hi : i < resp.results.length),
          r.values[i]? = some (resp.results[i].map parse)) ∧
        r.value = none) ∧
    (∀ specs : List mutate_in_spec,
      c.lcb_.lcb_subdoc ⟨id, c.scope_, c.name_, mutate_in_ops specs⟩ = (LCB_SUCCESS, resp) →
      ∃ r, c.mutate_in parse id specs = .ok r ∧ r.values.length = resp.results.length ∧
        (∀ (i : Nat) (hi : i < resp.results.length),
          r.values[i]? = some (resp.results[i].map parse)) ∧
        r.value = none) := by
  have hcb := subdoc_callback_init parse resp
  constructor
  · intro specs hsched
    refine ⟨subdoc_callback parse resp result.init, ?_, ?_, ?_, ?_⟩
    · simp [lookup_in, hsched]
    · rw [hcb]
      simp
    · intro i hi
      rw [hcb]
      simp [List.getElem?_map, List.getElem?_eq_getElem hi]
    · rw [hcb]
  · intro specs hsched
    refine ⟨subdoc_callback parse resp result.init, ?_, ?_, ?_, ?_⟩
    · simp [mutate_in, hsched]
    · rw [hcb]
      simp
    · intro i hi
      rw [hcb]
      simp [List.getElem?_map, List.getElem?_eq_getElem hi]
    · rw [hcb]

/-- Witness of C9: a lookup of two paths on the sample collection whose response has data
for the first path only. -/
theorem subdoc_values_of_response_witness :
    ∃ r, sample_collection.lookup_in sample_parse "doc-1"
        [⟨.LOOKUP_IN_GET, "some", 0⟩, ⟨.LOOKUP_IN_GET, "missing", 0⟩] = .ok r ∧
      r.values.length = 2 ∧
      (∀ (i : Nat) (hi : i < [some "thing", none].length),
        r.values[i]? = some (([some "thing", none] : List (Option String))[i].map sample_parse)) ∧
      r.value = none :=
  (subdoc_values_of_response sample_parse sample_collection "doc-1"
    ⟨LCB_SUCCESS, 77, "doc-1", [some "thing", none]⟩).1
    [⟨.LOOKUP_IN_GET, "some", 0⟩, ⟨.LOOKUP_IN_GET, "missing", 0⟩] rfl

end couchbase.collection

namespace couchbase.cluster

/-- C10: if `bucket(name)` returns the pointer `b`, the next `bucket(name)` returns the same
pointer `b`, to the same object at the same address, whatever address `new` would hand out
then and whatever the server and the pool would answer, and it leaves the cluster, and so
its list of open buckets, unchanged. -/
theorem bucket_cached (has_bucket has_bucket2 : String → Bool)
    (swap_available swap_available2 : pool → pool → Bool → pool × pool)
    (new_address new_address2 : Nat) (c c1 : cluster) (name : String)
    (b : shared_ptr couchbase.bucket)
    (h : c.bucket has_bucket swap_available new_address name = .ok (b, c1)) :
    c1.bucket has_bucket2 swap_available2 new_address2 name = .ok (b, c1) ∧
    ∀ b2 c2, c1.bucket has_bucket2 swap_available2 new_address2 name = .ok (b2, c2) →
      b2 = b ∧ b2.address = b.address ∧ c2.open_buckets_ = c1.open_buckets_ ∧ c2 = c1 := by
  have hfirst : c1.bucket has_bucket2 swap_available2 new_address2 name = .ok (b, c1) := by
    unfold bucket at h
    split at h
    · rename_i b0 hfind
      cases h
      simp [bucket, hfind]
    · rename_i hfind
      simp only [bind_ok_inv] at h
      obtain ⟨timeout, -, b1, hb1, hpure⟩ := h
      have hname : b1.name = name := by
        unfold couchbase.bucket.create at hb1
        split at hb1
        · cases hb1
          rfl
        · cases hb1
      simp only [pure, Except.pure, Except.ok.injEq, Prod.mk.injEq] at hpure
      obtain ⟨hb, hc1⟩ := hpure
      subst hb
      subst hc1
      have : (c.open_buckets_ ++ [(⟨new_address, b1⟩ : shared_ptr couchbase.bucket)]).find?
          (fun b => b.object.name == name) = some ⟨new_address, b1⟩ := by
        rw [List.find?_append, hfind]
        simp [hname]
      simp [bucket, this]
  refine ⟨hfirst, ?_⟩
  intro b2 c2 h2
  rw [hfirst] at h2
  cases h2
  exact ⟨rfl, rfl, rfl, rfl⟩

/-- Witness of C10: `default` is opened on the sample cluster at address 100; asked for
again when `new` would hand out address 200, the pointer to address 100 is returned. -/
theorem bucket_cached_witness :
    ∃ b c1, sample_cluster.bucket sample_has_bucket sample_swap_available 100 "default"
        = .ok (b, c1) ∧
      c1.bucket sample_has_bucket sample_swap_available 200 "default" = .ok (b, c1) ∧
      b.address = 100 ∧ c1.open_buckets_ = [b] :=
  ⟨_, _, rfl,
    (bucket_cached sample_has_bucket sample_has_bucket sample_swap_available
      sample_swap_available 100 200 sample_cluster _ "default" _ rfl).1, rfl, rfl⟩

end couchbase.cluster

namespace couchbase

/-- C11: `c == c` holds for every cluster, and a cluster built by the copy constructor is
not equal to the cluster it was copied from (in either order), although its address string,
user name, password and `max_bucket_instances_` are those of the source. -/
theorem cluster_equality_is_identity (m m1 : cluster_memory) (src dst : Nat)
    (h : m.copy_construct src = some (m1, dst)) :
    (∀ a : Nat, cluster.operator_eq a a = true) ∧
    cluster.operator_eq src dst = false ∧ cluster.operator_eq dst src = false ∧
    ∃ c d, m1.objects[src]? = some c ∧ m1.objects[dst]? = some d ∧
      d.cluster_address_ = c.cluster_address_ ∧ d.user_name_ = c.user_name_ ∧
      d.password_ = c.password_ ∧ d.max_bucket_instances_ = c.max_bucket_instances_ := by
  unfold cluster_memory.copy_construct at h
  split at h
  · rename_i c hc
    simp only [cluster_memory.construct, Option.some.injEq, Prod.mk.injEq] at h
    obtain ⟨hm, hdst⟩ := h
    subst hm
    subst hdst
    have hlt : src < m.objects.length := by
      rcases Nat.lt_or_ge src m.objects.length with hlt | hge
      · exact hlt
      · rw [List.getElem?_eq_none hge] at hc
        cases hc
    refine ⟨fun a => by simp [cluster.operator_eq], ?_, ?_, c, c.copy, ?_, ?_, rfl, rfl, rfl, rfl⟩
    · simp [cluster.operator_eq]
      omega
    · simp [cluster.operator_eq]
      omega
    · rw [List.getElem?_append_left hlt]
      exact hc
    · simp
  · cases h

/-- Witness of C11: the copy of the only cluster object, at address 0, is placed at address
1. -/
theorem cluster_equality_is_identity_witness :
    (∀ a : Nat, cluster.operator_eq a a = true) ∧
    cluster.operator_eq 0 1 = false ∧ cluster.operator_eq 1 0 = false ∧
    ∃ c d, (cluster_memory.mk [sample_cluster, sample_cluster.copy]).objects[0]? = some c ∧
      (cluster_memory.mk [sample_cluster, sample_cluster.copy]).objects[1]? = some d ∧
      d.cluster_address_ = c.cluster_address_ ∧ d.user_name_ = c.user_name_ ∧
      d.password_ = c.password_ ∧ d.max_bucket_instances_ = c.max_bucket_instances_ :=
  cluster_equality_is_identity ⟨[sample_cluster]⟩ ⟨[sample_cluster, sample_cluster.copy]⟩ 0 1 rfl

namespace transactions

/-- C12: after `d.cas(c)` with a 64-bit value `c`, the getter `d.cas()` returns `c`, and the
id, the links, the metadata and the stored content (and the collection) are unchanged. -/
theorem set_cas_frame (d : transaction_get_result) (c : Nat) (hc : c < 2 ^ 64) :
    (d.set_cas c).cas = c ∧ (d.set_cas c).id = d.id ∧ (d.set_cas c).links = d.links ∧
    (d.set_cas c).metadata = d.metadata ∧ (d.set_cas c).value = d.value ∧
    (d.set_cas c).coll = d.coll := by
  refine ⟨?_, rfl, rfl, rfl, rfl, rfl⟩
  show c % 2 ^ 64 = c
  exact Nat.mod_eq_of_lt hc

/-- Witness of C12: the CAS 100 set on a document read with CAS 1616. -/
theorem set_cas_frame_witness :
    (sample_get_result.set_cas 100).cas = 100 ∧
    (sample_get_result.set_cas 100).id = sample_get_result.id ∧
    (sample_get_result.set_cas 100).links = sample_get_result.links ∧
    (sample_get_result.set_cas 100).metadata = sample_get_result.metadata ∧
    (sample_get_result.set_cas 100).value = sample_get_result.value ∧
    (sample_get_result.set_cas 100).coll = sample_get_result.coll :=
  set_cas_frame sample_get_result 100 (by decide)

end transactions

end couchbase

namespace couchbase.transactions.staged_mutation_queue

/-- Calls of `add()` on keys that are pairwise distinct, and distinct from the keys in the
log, are appended in order. -/
theorem add_all_distinct :
    ∀ (mutations : List staged_mutation) (q : staged_mutation_queue),
      (∀ a ∈ q.queue_, ∀ b ∈ mutations,
        ¬ (a.doc_.collection_ = b.doc_.collection_ ∧ a.doc_.id_ = b.doc_.id_)) →
      mutations.Pairwise
        (fun a b => ¬ (a.doc_.collection_ = b.doc_.collection_ ∧ a.doc_.id_ = b.doc_.id_)) →
      (q.add_all mutations).queue_ = q.queue_ ++ mutations := by
  intro mutations
  induction mutations with
  | nil => intro q _ _; simp [add_all]
  | cons m rest ih =>
    intro q hq hpw
    have hnil : q.queue_.filter (staged_mutation.has_key m.doc_.collection_ m.doc_.id_) = [] := by
      rw [List.filter_eq_nil_iff]
      intro a ha hk
      simp only [staged_mutation.has_key, Bool.and_eq_true, beq_iff_eq] at hk
      exact hq a ha m (List.mem_cons_self m rest) hk
    have hadd : q.add m = ⟨q.queue_ ++ [m]⟩ := by
      unfold add find
      rw [hnil]
      rfl
    rw [List.pairwise_cons] at hpw
    simp only [add_all, List.foldl_cons, hadd]
    have := ih ⟨q.queue_ ++ [m]⟩
      (by
        intro a ha b hb
        rcases List.mem_append.1 ha with ha | ha
        · exact hq a ha b (List.mem_cons_of_mem m hb)
        · rw [List.mem_singleton.1 ha]
          exact hpw.1 b hb)
      hpw.2
    simp only [add_all] at this
    rw [this]
    simp

/-- C15: for every sequence of `add()` calls on pairwise distinct keys, on an empty log,
the extraction yields the entries in the order in which they were added, and the commit
unstages them in that order. -/
theorem extract_in_insertion_order (mutations : List staged_mutation)
    (hdistinct : mutations.Pairwise
      (fun a b => ¬ (a.doc_.collection_ = b.doc_.collection_ ∧ a.doc_.id_ = b.doc_.id_))) :
    ((staged_mutation_queue.mk []).add_all mutations).extract = mutations ∧
    ((staged_mutation_queue.mk []).add_all mutations).commit
      = mutations.map staged_mutation.unstage := by
  have h := add_all_distinct mutations ⟨[]⟩ (by intro a ha; cases ha) hdistinct
  simp only [List.nil_append] at h
  exact ⟨h, by simp [commit, extract, h]⟩

/-- Witness of C15: a remove of `doc-a` and an insert of `doc-b` are extracted, and
unstaged, in that order. -/
theorem extract_in_insertion_order_witness :
    ((staged_mutation_queue.mk []).add_all
      [⟨sample_doc_a, .REMOVE, .null⟩, ⟨sample_doc_b, .INSERT, .num 1⟩]).extract
      = [⟨sample_doc_a, .REMOVE, .null⟩, ⟨sample_doc_b, .INSERT, .num 1⟩] ∧
    ((staged_mutation_queue.mk []).add_all
      [⟨sample_doc_a, .REMOVE, .null⟩, ⟨sample_doc_b, .INSERT, .num 1⟩]).commit
      = [.delete_document sample_doc_a, .set_body sample_doc_b (.num 1)] :=
  extract_in_insertion_order [⟨sample_doc_a, .REMOVE, .null⟩, ⟨sample_doc_b, .INSERT, .num 1⟩]
    (by
      simp only [List.pairwise_cons, List.mem_singleton, forall_eq, List.not_mem_nil,
        false_implies, implies_true, List.Pairwise.nil, and_true]
      intro h
      exact absurd h.2 (by decide))

end couchbase.transactions.staged_mutation_queue

namespace couchbase.transactions

/-- The priority queue ordered by `compare_atr_entries` is empty exactly when it has no
top. -/
theorem priority_queue_pop_none (l : List atr_cleanup_entry) :
    priority_queue_pop compare_atr_entries l = none ↔ l = [] := by
  cases l with
  | nil => simp [priority_queue_pop]
  | cons x xs =>
    simp only [priority_queue_pop]
    cases priority_queue_pop compare_atr_entries xs with
    | none => simp
    | some p =>
      obtain ⟨y, ys⟩ := p
      simp only [reduceCtorEq, iff_false]
      split <;> simp

/-- The top of the priority queue ordered by `compare_atr_entries` starts no later than any
queued entry, and popping it removes exactly that entry. -/
theorem priority_queue_pop_least (l : List atr_cleanup_entry) :
    ∀ (top : atr_cleanup_entry) (rest : List atr_cleanup_entry),
      priority_queue_pop compare_atr_entries l = some (top, rest) →
      (top :: rest).Perm l ∧ ∀ x ∈ l, top.min_start_time_ ≤ x.min_start_time_ := by
  induction l with
  | nil => intro top rest h; simp [priority_queue_pop] at h
  | cons x xs ih =>
    intro top rest h
    simp only [priority_queue_pop] at h
    cases hxs : priority_queue_pop compare_atr_entries xs with
    | none =>
      rw [hxs] at h
      simp only [Option.some.injEq, Prod.mk.injEq] at h
      obtain ⟨h1, h2⟩ := h
      subst h1
      subst h2
      have : xs = [] := (priority_queue_pop_none xs).1 hxs
      subst this
      exact ⟨List.Perm.refl _, by simp⟩
    | some p =>
      obtain ⟨y, ys⟩ := p
      rw [hxs] at h
      obtain ⟨hperm, hleast⟩ := ih y ys hxs
      by_cases hc : compare_atr_entries x y = true
      · simp only [hc, if_true, Option.some.injEq, Prod.mk.injEq] at h
        obtain ⟨h1, h2⟩ := h
        subst h1
        subst h2
        refine ⟨(List.Perm.swap x y ys).trans (List.Perm.cons x hperm), ?_⟩
        intro z hz
        rcases List.mem_cons.1 hz with hz | hz
        · subst hz
          simp only [compare_atr_entries, gt_iff_lt, decide_eq_true_eq] at hc
          omega
        · exact hleast z hz
      · simp only [hc, Bool.false_eq_true, if_false, Option.some.injEq, Prod.mk.injEq] at h
        obtain ⟨h1, h2⟩ := h
        subst h1
        subst h2
        refine ⟨List.Perm.refl _, ?_⟩
        intro z hz
        rcases List.mem_cons.1 hz with hz | hz
        · subst hz
          exact Nat.le_refl _
        · have hy := hleast z hz
          simp only [compare_atr_entries, gt_iff_lt, decide_eq_true_eq, not_lt] at hc
          omega

namespace atr_cleanup_queue

/-- C16: `pop(check_time=true)` returns an entry only if that entry is queued, starts no
later than any queued entry and no later than `now()`, and then removes exactly that entry;
when it returns nothing the queue is unchanged, and it returns nothing when no queued entry
starts by `now()`. -/
theorem pop_checked_returns_least_ready (q : atr_cleanup_queue) (now : Nat) :
    (∀ e q1, q.pop now true = (some e, q1) →
      e ∈ q.queue_ ∧ (∀ x ∈ q.queue_, e.min_start_time_ ≤ x.min_start_time_) ∧
      e.min_start_time_ ≤ now ∧ (e :: q1.queue_).Perm q.queue_) ∧
    (∀ q1, q.pop now true = (none, q1) → q1 = q) ∧
    ((∀ x ∈ q.queue_, now < x.min_start_time_) → q.pop now true = (none, q)) := by
  refine ⟨?_, ?_, ?_⟩
  · intro e q1 h
    unfold pop at h
    cases hp : priority_queue_pop compare_atr_entries q.queue_ with
    | none =>
      rw [hp] at h
      cases h
    | some p =>
      obtain ⟨top, rest⟩ := p
      rw [hp] at h
      obtain ⟨hperm, hleast⟩ := priority_queue_pop_least q.queue_ top rest hp
      by_cases hr : top.ready now = true
      · simp only [hr, Bool.not_true, Bool.or_true, if_true, Prod.mk.injEq,
          Option.some.injEq] at h
        obtain ⟨h1, h2⟩ := h
        subst h1
        subst h2
        refine ⟨hperm.subset (List.mem_cons_self _ _), hleast, ?_, hperm⟩
        simpa [atr_cleanup_entry.ready] using hr
      · simp [hr] at h
  · intro q1 h
    unfold pop at h
    cases hp : priority_queue_pop compare_atr_entries q.queue_ with
    | none =>
      rw [hp] at h
      simp only [Prod.mk.injEq, true_and] at h
      exact h.symm
    | some p =>
      obtain ⟨top, rest⟩ := p
      rw [hp] at h
      by_cases hr : top.ready now = true
      · simp [hr] at h
      · simp only [hr, Bool.not_true, Bool.or_false, Bool.false_eq_true, if_false,
          Prod.mk.injEq, true_and] at h
        exact h.symm
  · intro hlate
    unfold pop
    cases hp : priority_queue_pop compare_atr_entries q.queue_ with
    | none => rfl
    | some p =>
      obtain ⟨top, rest⟩ := p
      obtain ⟨hperm, -⟩ := priority_queue_pop_least q.queue_ top rest hp
      have hmem : top ∈ q.queue_ := hperm.subset (List.mem_cons_self _ _)
      have hr : top.ready now = false := by
        have := hlate top hmem
        simp only [atr_cleanup_entry.ready, decide_eq_false_iff_not, not_le]
        exact this
      simp [hr]

/-- Witness of C16: at time 15 the sample queue gives up its entry that starts at 10, and at
time 5 it gives up nothing. -/
theorem pop_checked_returns_least_ready_witness :
    (sample_cleanup_queue.pop 15 true).1
      = some ⟨"_txn:atr-2", "attempt-2", ("default", "_default", "_default"), 10, true⟩ ∧
    sample_cleanup_queue.pop 5 true = (none, sample_cleanup_queue) :=
  ⟨by decide,
    (pop_checked_returns_least_ready sample_cleanup_queue 5).2.2 (by decide)⟩

end atr_cleanup_queue

end couchbase.transactions

namespace couchbase.transactions.atr_cleanup_queue

/-- A push keeps the dedup keys of the queue pairwise distinct. -/
theorem push_keeps_keys_distinct (q : atr_cleanup_queue) (entry : atr_cleanup_entry)
    (h : q.queue_.Pairwise
      (fun a b => ¬ (a.atr_id_ = b.atr_id_ ∧ a.attempt_id_ = b.attempt_id_))) :
    (q.push entry).queue_.Pairwise
      (fun a b => ¬ (a.atr_id_ = b.atr_id_ ∧ a.attempt_id_ = b.attempt_id_)) := by
  unfold push
  split
  · exact h
  · rename_i hany
    simp only [List.any_eq_true, Bool.and_eq_true, beq_iff_eq, not_exists, not_and] at hany
    rw [List.pairwise_cons]
    refine ⟨?_, h⟩
    intro b hb hkey
    exact hany b hb hkey.1.symm hkey.2.symm

/-- A pop keeps the dedup keys of the queue pairwise distinct. -/
theorem pop_keeps_keys_distinct (q : atr_cleanup_queue) (now : Nat) (check_time : Bool)
    (h : q.queue_.Pairwise
      (fun a b => ¬ (a.atr_id_ = b.atr_id_ ∧ a.attempt_id_ = b.attempt_id_))) :
    (q.pop now check_time).2.queue_.Pairwise
      (fun a b => ¬ (a.atr_id_ = b.atr_id_ ∧ a.attempt_id_ = b.attempt_id_)) := by
  unfold pop
  cases hp : priority_queue_pop compare_atr_entries q.queue_ with
  | none => exact h
  | some p =>
    obtain ⟨top, rest⟩ := p
    simp only []
    split
    · obtain ⟨hperm, -⟩ := priority_queue_pop_least q.queue_ top rest hp
      have hsymm : ∀ {x y : atr_cleanup_entry},
          ¬ (x.atr_id_ = y.atr_id_ ∧ x.attempt_id_ = y.attempt_id_) →
          ¬ (y.atr_id_ = x.atr_id_ ∧ y.attempt_id_ = x.attempt_id_) :=
        fun hxy hyx => hxy ⟨hyx.1.symm, hyx.2.symm⟩
      have := (hperm.pairwise_iff hsymm).2 h
      exact (List.pairwise_cons.1 this).2
    · exact h

/-- C17: after every sequence of pushes and pops on an empty cleanup queue no two queued
entries have the same (`atr_id`, `attempt_id`), and pushing an entry whose (`atr_id`,
`attempt_id`) is already queued leaves `size()` unchanged. -/
theorem cleanup_queue_dedup (cs : List cleanup_queue_call) :
    ((atr_cleanup_queue.mk []).calls cs).queue_.Pairwise
      (fun a b => ¬ (a.atr_id_ = b.atr_id_ ∧ a.attempt_id_ = b.attempt_id_)) ∧
    ∀ (q : atr_cleanup_queue) (entry : atr_cleanup_entry),
      (∃ e ∈ q.queue_, e.atr_id_ = entry.atr_id_ ∧ e.attempt_id_ = entry.attempt_id_) →
      (q.push entry).size = q.size ∧ q.push entry = q := by
  constructor
  · have hgen : ∀ (cs : List cleanup_queue_call) (q : atr_cleanup_queue),
        q.queue_.Pairwise
          (fun a b => ¬ (a.atr_id_ = b.atr_id_ ∧ a.attempt_id_ = b.attempt_id_)) →
        (q.calls cs).queue_.Pairwise
          (fun a b => ¬ (a.atr_id_ = b.atr_id_ ∧ a.attempt_id_ = b.attempt_id_)) := by
      intro cs
      induction cs with
      | nil => intro q h; exact h
      | cons c rest ih =>
        intro q h
        simp only [calls, List.foldl_cons]
        apply ih
        cases c with
        | push entry => exact push_keeps_keys_distinct q entry h
        | pop now check_time => exact pop_keeps_keys_distinct q now check_time h
    exact hgen cs ⟨[]⟩ List.Pairwise.nil
  · intro q entry ⟨e, he, hid, hattempt⟩
    have hany : q.queue_.any
        (fun e => e.atr_id_ == entry.atr_id_ && e.attempt_id_ == entry.attempt_id_) = true := by
      simp only [List.any_eq_true, Bool.and_eq_true, beq_iff_eq]
      exact ⟨e, he, hid, hattempt⟩
    have hpush : q.push entry = q := by
      unfold push
      simp [hany]
    exact ⟨by rw [hpush], hpush⟩

/-- Witness of C17: pushing attempt `attempt-2` of `_txn:atr-2` again, with another start
time, leaves the sample queue at three entries. -/
theorem cleanup_queue_dedup_witness :
    (sample_cleanup_queue.push
      ⟨"_txn:atr-2", "attempt-2", ("default", "_default", "_default"), 99, true⟩).size = 3 :=
  ((cleanup_queue_dedup []).2 sample_cleanup_queue
    ⟨"_txn:atr-2", "attempt-2", ("default", "_default", "_default"), 99, true⟩
    ⟨⟨"_txn:atr-2", "attempt-2", ("default", "_default", "_default"), 10, true⟩,
      by decide, rfl, rfl⟩).1

end couchbase.transactions.atr_cleanup_queue

namespace couchbase.transactions

/-- The entry of an attempt after an update of the entries of an attempt. -/
theorem lookup_update_attempt (id target : String) (f : atr_entry → atr_entry) :
    ∀ l : List (String × atr_entry),
      lookup_attempt id (update_attempt target f l)
        = (lookup_attempt id l).map (fun e => if id = target then f e else e) := by
  intro l
  induction l with
  | nil => rfl
  | cons p rest ih =>
    obtain ⟨k, e⟩ := p
    by_cases hid : k = id
    · subst hid
      by_cases hk : k = target <;> simp [update_attempt, lookup_attempt, hk]
    · by_cases hk : k = target
      · have hne : ¬ target = id := fun h => hid (hk.trans h)
        simp [update_attempt, lookup_attempt, hk, hne, ih]
      · simp [update_attempt, lookup_attempt, hid, ih]

/-- An entry that exists is not affected by an entry appended to the list. -/
theorem lookup_append_attempt (id : String) (e : atr_entry) (p : String × atr_entry) :
    ∀ l : List (String × atr_entry),
      lookup_attempt id l = some e → lookup_attempt id (l ++ [p]) = some e := by
  intro l
  induction l with
  | nil => intro h; cases h
  | cons x rest ih =>
    obtain ⟨k, v⟩ := x
    intro h
    by_cases hk : k = id
    · simpa [lookup_attempt, hk] using h
    · simp only [lookup_attempt, hk, if_false] at h
      simpa [lookup_attempt, hk] using ih h

namespace atr_document

/-- A successful `set_state` found the entry, made a legal transition, and left the entry
with the new state. -/
theorem set_state_ok (atr next : atr_document) (id : String) (s : attempt_state) (hlc : Nat)
    (h : atr.set_state id s hlc = .ok next) :
    ∃ e, atr.read_entry id = some e ∧ legal_transition e.st s = true ∧
      (next.read_entry id).map (fun e => e.st) = some s := by
  unfold set_state at h
  cases hr : atr.read_entry id with
  | none =>
    rw [hr] at h
    cases h
  | some e =>
    rw [hr] at h
    by_cases hl : legal_transition e.st s = true
    · simp only [hl, if_true, Except.ok.injEq] at h
      subst h
      refine ⟨e, rfl, hl, ?_⟩
      unfold read_entry at hr ⊢
      simp [lookup_update_attempt, hr]
    · simp [hl] at h

/-- A call of the ATR manager keeps every entry, and either keeps its state or moves it along
a legal transition. -/
theorem call_moves_legally (atr : atr_document) (c : atr_call) (id : String) (e : atr_entry)
    (he : atr.read_entry id = some e) :
    ∃ e1, (atr.call c).read_entry id = some e1 ∧
      (e1.st = e.st ∨ legal_transition e.st e1.st = true) := by
  cases c with
  | set_pending target expiry hlc =>
    simp only [call, set_pending]
    cases atr.read_entry target with
    | some _ => exact ⟨e, he, Or.inl rfl⟩
    | none =>
      refine ⟨e, ?_, Or.inl rfl⟩
      exact lookup_append_attempt id e _ atr.attempts he
  | append_doc_record target kind doc =>
    simp only [call, append_doc_record]
    cases atr.read_entry target with
    | none => exact ⟨e, he, Or.inl rfl⟩
    | some _ =>
      unfold read_entry at he ⊢
      simp only [lookup_update_attempt, he, Option.map_some']
      by_cases hid : id = target
      · simp only [hid, if_true]
        cases kind <;> exact ⟨_, rfl, Or.inl rfl⟩
      · simp only [hid, if_false]
        exact ⟨_, rfl, Or.inl rfl⟩
  | set_state target s hlc =>
    simp only [call, set_state]
    cases ht : atr.read_entry target with
    | none => exact ⟨e, he, Or.inl rfl⟩
    | some t =>
      by_cases hl : legal_transition t.st s = true
      · simp only [hl, if_true]
        unfold read_entry at he ht ⊢
        simp only [lookup_update_attempt, he, Option.map_some']
        by_cases hid : id = target
        · subst hid
          rw [he] at ht
          cases ht
          simp only [if_true]
          exact ⟨_, rfl, Or.inr hl⟩
        · simp only [hid, if_false]
          exact ⟨_, rfl, Or.inl rfl⟩
      · simp only [hl, Bool.false_eq_true, if_false]
        exact ⟨e, he, Or.inl rfl⟩

end atr_document

/-- C18: the state of an attempt in an ATR entry only moves along the legal transitions
(`PENDING` to `ABORTED` or `COMMITTED`, `COMMITTED` to `COMPLETED`, `ABORTED` to
`ROLLED_BACK`): a successful `set_state` is a legal transition, every call of the ATR manager
keeps the state of an entry or moves it along a legal transition, and after any sequence of
calls an entry that was `COMMITTED` is `COMMITTED` or `COMPLETED`, never `ABORTED` or
`ROLLED_BACK`. -/
theorem atr_state_moves_along_legal_transitions :
    (∀ a b : attempt_state, legal_transition a b = true ↔
      (a = .PENDING ∧ b = .ABORTED) ∨ (a = .PENDING ∧ b = .COMMITTED) ∨
      (a = .COMMITTED ∧ b = .COMPLETED) ∨ (a = .ABORTED ∧ b = .ROLLED_BACK)) ∧
    (∀ (atr next : atr_document) (id : String) (s : attempt_state) (hlc : Nat),
      atr.set_state id s hlc = .ok next →
      ∃ e, atr.read_entry id = some e ∧ legal_transition e.st s = true ∧
        (next.read_entry id).map (fun e => e.st) = some s) ∧
    (∀ (atr : atr_document) (c : atr_call) (id : String) (e : atr_entry),
      atr.read_entry id = some e →
      ∃ e1, (atr.call c).read_entry id = some e1 ∧
        (e1.st = e.st ∨ legal_transition e.st e1.st = true)) ∧
    (∀ (cs : List atr_call) (atr : atr_document) (id : String) (e : atr_entry),
      atr.read_entry id = some e → e.st = .COMMITTED →
      ∃ e1, (atr.calls cs).read_entry id = some e1 ∧
        (e1.st = .COMMITTED ∨ e1.st = .COMPLETED) ∧
        e1.st ≠ .ABORTED ∧ e1.st ≠ .ROLLED_BACK) := by
  refine ⟨?_, atr_document.set_state_ok, atr_document.call_moves_legally, ?_⟩
  · intro a b
    cases a <;> cases b <;> simp [legal_transition]
  · have hgen : ∀ (cs : List atr_call) (atr : atr_document) (id : String) (e : atr_entry),
        atr.read_entry id = some e → (e.st = .COMMITTED ∨ e.st = .COMPLETED) →
        ∃ e1, (atr.calls cs).read_entry id = some e1 ∧
          (e1.st = .COMMITTED ∨ e1.st = .COMPLETED) := by
      intro cs
      induction cs with
      | nil => intro atr id e he hst; exact ⟨e, he, hst⟩
      | cons c rest ih =>
        intro atr id e he hst
        obtain ⟨e1, he1, hmove⟩ := atr_document.call_moves_legally atr c id e he
        simp only [atr_document.calls, List.foldl_cons]
        apply ih (atr.call c) id e1 he1
        rcases hmove with hsame | hlegal
        · rw [hsame]
          exact hst
        · rcases hst with hst | hst
          · rw [hst] at hlegal
            cases h1 : e1.st <;> rw [h1] at hlegal <;> simp [legal_transition] at hlegal
            exact Or.inr rfl
          · rw [hst] at hlegal
            cases h1 : e1.st <;> rw [h1] at hlegal <;> simp [legal_transition] at hlegal
    intro cs atr id e he hst
    obtain ⟨e1, he1, h1⟩ := hgen cs atr id e he (Or.inl hst)
    refine ⟨e1, he1, h1, ?_, ?_⟩
    · rcases h1 with h | h <;> rw [h] <;> decide
    · rcases h1 with h | h <;> rw [h] <;> decide

/-- Witness of C18: on the sample ATR the committed attempt stays committed under a
`set_state` to `ABORTED`, which fails, and becomes `COMPLETED` under the `set_state` to
`COMPLETED` that follows. -/
theorem atr_state_moves_along_legal_transitions_witness :
    (sample_atr.calls [.set_state "attempt-1" .ABORTED 130,
        .set_state "attempt-1" .COMPLETED 140]).read_entry "attempt-1"
      = some ⟨.COMPLETED, 100, 140, 15000, [], [⟨"default", "_default", "_default", "doc-a"⟩],
        []⟩ ∧
    ∃ e1, (sample_atr.calls [.set_state "attempt-1" .ABORTED 130,
        .set_state "attempt-1" .COMPLETED 140]).read_entry "attempt-1" = some e1 ∧
      (e1.st = .COMMITTED ∨ e1.st = .COMPLETED) ∧ e1.st ≠ .ABORTED ∧ e1.st ≠ .ROLLED_BACK :=
  ⟨by decide,
    atr_state_moves_along_legal_transitions.2.2.2
      [.set_state "attempt-1" .ABORTED 130, .set_state "attempt-1" .COMPLETED 140] sample_atr
      "attempt-1" ⟨.COMMITTED, 100, 120, 15000, [], [⟨"default", "_default", "_default",
        "doc-a"⟩], []⟩ (by decide) rfl⟩

end couchbase.transactions

namespace couchbase.transactions

/-- C19: every classified error carries one of the four flag combinations retry with
rollback, rollback alone, `commit_ambiguous` alone, final alone, and each of the four is
carried by some classified error; so no classified error has retry without rollback, or
final together with retry. -/
theorem classification_has_four_combinations :
    (∀ (kind : error_kind) (ctx : classification_context),
      classify kind ctx = ⟨true, true, false, false⟩ ∨
      classify kind ctx = ⟨false, true, false, false⟩ ∨
      classify kind ctx = ⟨false, false, true, false⟩ ∨
      classify kind ctx = ⟨false, false, false, true⟩) ∧
    (∃ kind ctx, classify kind ctx = ⟨true, true, false, false⟩) ∧
    (∃ kind ctx, classify kind ctx = ⟨false, true, false, false⟩) ∧
    (∃ kind ctx, classify kind ctx = ⟨false, false, true, false⟩) ∧
    (∃ kind ctx, classify kind ctx = ⟨false, false, false, true⟩) ∧
    (∀ (kind : error_kind) (ctx : classification_context),
      ¬ ((classify kind ctx).retry = true ∧ (classify kind ctx).rollback = false) ∧
      ¬ ((classify kind ctx).final = true ∧ (classify kind ctx).retry = true)) := by
  have hall : ∀ (kind : error_kind) (ctx : classification_context),
      classify kind ctx = ⟨true, true, false, false⟩ ∨
      classify kind ctx = ⟨false, true, false, false⟩ ∨
      classify kind ctx = ⟨false, false, true, false⟩ ∨
      classify kind ctx = ⟨false, false, false, true⟩ := by
    intro kind ctx
    obtain ⟨inside, past, fc⟩ := ctx
    cases kind <;> cases inside <;> cases past <;> cases fc <;> simp [classify]
  refine ⟨hall, ⟨.TRANSIENT, ⟨false, false, false⟩, rfl⟩,
    ⟨.ATTEMPT_EXPIRED, ⟨false, false, false⟩, rfl⟩, ⟨.TRANSIENT, ⟨false, true, false⟩, rfl⟩,
    ⟨.HARD_FAILURE, ⟨false, false, false⟩, rfl⟩, ?_⟩
  intro kind ctx
  rcases hall kind ctx with h | h | h | h <;> rw [h] <;> simp

end couchbase.transactions

namespace couchbase.transactions

namespace attempt_context

end attempt_context

namespace attempt_context

end attempt_context

end couchbase.transactions
namespace couchbase.transactions.transaction_get_result

/-- C23: `create_from(d, c)` returns a result with the id, the CAS, the collection and the
metadata of `d`, with each of the fourteen links fields of `d`, and with stored content
`c`. -/
theorem create_from_document_keeps_all_but_content (d : transaction_get_result) (c : String) :
    (create_from_document d c).id = d.id ∧ (create_from_document d c).cas = d.cas ∧
    (create_from_document d c).coll = d.coll ∧
    (create_from_document d c).metadata = d.metadata ∧
    (create_from_document d c).value = c ∧
    (create_from_document d c).links.atr_id = d.links.atr_id ∧
    (create_from_document d c).links.atr_bucket_name = d.links.atr_bucket_name ∧
    (create_from_document d c).links.atr_scope_name = d.links.atr_scope_name ∧
    (create_from_document d c).links.atr_collection_name = d.links.atr_collection_name ∧
    (create_from_document d c).links.staged_transaction_id = d.links.staged_transaction_id ∧
    (create_from_document d c).links.staged_attempt_id = d.links.staged_attempt_id ∧
    (create_from_document d c).links.staged_content = d.links.staged_content ∧
    (create_from_document d c).links.cas_pre_txn = d.links.cas_pre_txn ∧
    (create_from_document d c).links.revid_pre_txn = d.links.revid_pre_txn ∧
    (create_from_document d c).links.exptime_pre_txn = d.links.exptime_pre_txn ∧
    (create_from_document d c).links.crc32_of_staging = d.links.crc32_of_staging ∧
    (create_from_document d c).links.op = d.links.op ∧
    (create_from_document d c).links.forward_compat = d.links.forward_compat ∧
    (create_from_document d c).links.is_deleted = d.links.is_deleted ∧
    (create_from_document d c).links = d.links :=
  ⟨rfl, rfl, rfl, rfl, rfl, rfl, rfl, rfl, rfl, rfl, rfl, rfl, rfl, rfl, rfl, rfl, rfl, rfl, rfl,
    rfl⟩

/-- C24: the copy constructor yields a result equal to the source in id, value, CAS, links
and metadata (and collection), whereas `operator=` makes the value, the id and the links of
the target those of the source and leaves the CAS and the metadata of the target
unchanged. -/
theorem copy_and_assign_differ_on_cas (this other_addr : Nat)
    (target other : transaction_get_result)
    (hsame : this = other_addr → other = target) :
    (copy other).id = other.id ∧ (copy other).value = other.value ∧
    (copy other).cas = other.cas ∧ (copy other).links = other.links ∧
    (copy other).metadata = other.metadata ∧ copy other = other ∧
    (assign this other_addr target other).value = other.value ∧
    (assign this other_addr target other).id = other.id ∧
    (assign this other_addr target other).links = other.links ∧
    (assign this other_addr target other).cas = target.cas ∧
    (assign this other_addr target other).metadata = target.metadata := by
  refine ⟨rfl, rfl, rfl, rfl, rfl, rfl, ?_⟩
  by_cases h : this = other_addr
  · have := hsame h
    subst this
    simp [assign, h]
  · simp [assign, h]

/-- Witness of C24: the plain document read with CAS 7 is assigned to the staged document
read with CAS 1616, which keeps its CAS 1616 and takes the id `doc-2`. -/
theorem copy_and_assign_differ_on_cas_witness :
    (assign 0 1 sample_get_result sample_plain_result).cas = 1616 ∧
    (assign 0 1 sample_get_result sample_plain_result).id = "doc-2" ∧
    (copy sample_plain_result).cas = 7 :=
  have h := copy_and_assign_differ_on_cas 0 1 sample_get_result sample_plain_result
    (by intro h; exact absurd h (by decide))
  ⟨h.2.2.2.2.2.2.2.2.2.1, h.2.2.2.2.2.2.2.1, h.2.2.1⟩

/-- C25: in a result returned by `create_from`, `links.forward_compat` is present: it is
slot 10 when that slot is present and the empty JSON object otherwise. -/
theorem create_from_forward_compat (dump : Json → String) (past_end : String)
    (coll : String × String × String) (id : String) (res : result)
    (r : transaction_get_result) (h : create_from dump past_end coll id res = .ok r) :
    r.links.forward_compat.isSome = true ∧
    (∀ fc, res.values[10]? = some (some fc) → r.links.forward_compat = some fc) ∧
    (res.values[10]? = some none → r.links.forward_compat = some (Json.obj [])) := by
  obtain ⟨a0, a1, a2, a3, a4, a5, a6, a7, a8, a9, s10, s11, -, -, -, -, -, -, -, -, -, -,
    h10, -, hr⟩ := create_from_ok_inv dump past_end coll id res r h
  subst hr
  refine ⟨?_, ?_, ?_⟩
  · cases s10 <;> rfl
  · intro fc hfc
    rw [hfc] at h10
    cases h10
    rfl
  · intro hnone
    rw [hnone] at h10
    cases h10
    rfl

/-- Witness of C25 on the lookup result of a staged document, which has no slot 10. -/
theorem create_from_forward_compat_witness :
    ∃ r, create_from sample_dump sample_past_end ("default", "_default", "_default") "doc-1" staged_lookup
        = .ok r ∧ r.links.forward_compat = some (Json.obj []) :=
  ⟨_, rfl,
    (create_from_forward_compat sample_dump sample_past_end ("default", "_default", "_default") "doc-1"
      staged_lookup _ rfl).2.2 rfl⟩

end couchbase.transactions.transaction_get_result
namespace couchbase

namespace transactions.transaction_get_result

/-- Slot 8 absent: none of the four metadata fields. -/
theorem document_slot_absent (res : result) (h8 : res.values[8]? = some none) :
    document_slot res = .ok (none, none, none, none) := by
  simp [document_slot, result.values_at, h8, bind, Except.bind, pure, Except.pure]

/-- Slot 8 holding the four members with their expected types decodes to them. -/
theorem document_slot_members (res : result) (members : List (String × Json))
    (cas revid crc32 : String) (exptime : Nat)
    (h8 : res.values[8]? = some (some (Json.obj members)))
    (hcas : Json.lookup "CAS" members = some (Json.str cas))
    (hrevid : Json.lookup "revid" members = some (Json.str revid))
    (hexp : Json.lookup "exptime" members = some (Json.num exptime))
    (hcrc : Json.lookup "value_crc32c" members = some (Json.str crc32))
    (hrange : exptime < 2 ^ 32) :
    document_slot res = .ok (some cas, some revid, some exptime, some crc32) := by
  simp [document_slot, result.values_at, h8, Json.at_key, hcas, hrevid, hexp, hcrc,
    Json.get_string, Json.get_uint32, bind, Except.bind, pure, Except.pure]
  omega

end transactions.transaction_get_result
end couchbase
namespace couchbase.transactions.transaction_get_result

/-- Slot 8 present: a decoding that returns gives all four metadata fields. -/
theorem document_slot_present (res : result) (doc : Json)
    (a : Option String × Option String × Option Nat × Option String)
    (h8 : res.values[8]? = some (some doc)) (h : document_slot res = .ok a) :
    a.1.isSome = true ∧ a.2.1.isSome = true ∧ a.2.2.1.isSome = true ∧
      a.2.2.2.isSome = true := by
  simp only [document_slot, result.values_at, h8, bind_ok_inv] at h
  obtain ⟨slot, hslot, hrest⟩ := h
  cases hslot
  simp only [bind_ok_inv] at hrest
  obtain ⟨j1, -, s1, -, j2, -, s2, -, j3, -, n3, -, j4, -, s4, -, hpure⟩ := hrest
  cases hpure
  exact ⟨rfl, rfl, rfl, rfl⟩

/-- C26: in a result returned by `create_from`, `metadata()` is present; when slot 8 is an
object whose members `CAS`, `revid` and `value_crc32c` are strings and whose member
`exptime` is a number below `2 ^ 32`, its `cas`, `revid`, `exptime` and `crc32` fields are
present with those members; when slot 8 is absent the four fields are absent; and whenever
slot 8 is present the four fields are present. -/
theorem create_from_metadata (dump : Json → String) (past_end : String)
    (coll : String × String × String) (id : String) (res : result)
    (r : transaction_get_result) (h : create_from dump past_end coll id res = .ok r) :
    r.metadata.isSome = true ∧
    (∀ (members : List (String × Json)) (cas revid crc32 : String) (exptime : Nat),
      res.values[8]? = some (some (Json.obj members)) →
      Json.lookup "CAS" members = some (Json.str cas) →
      Json.lookup "revid" members = some (Json.str revid) →
      Json.lookup "exptime" members = some (Json.num exptime) → exptime < 2 ^ 32 →
      Json.lookup "value_crc32c" members = some (Json.str crc32) →
      r.metadata = some ⟨some cas, some revid, some exptime, some crc32⟩) ∧
    (res.values[8]? = some none → r.metadata = some ⟨none, none, none, none⟩) ∧
    (∀ doc, res.values[8]? = some (some doc) →
      ∃ md, r.metadata = some md ∧ md.cas.isSome = true ∧ md.revid.isSome = true ∧
        md.exptime.isSome = true ∧ md.crc32.isSome = true) := by
  obtain ⟨a0, a1, a2, a3, a4, a5, a6, a7, a8, a9, s10, s11, -, -, -, -, -, -, -, -, h8, -,
    -, -, hr⟩ := create_from_ok_inv dump past_end coll id res r h
  subst hr
  refine ⟨rfl, ?_, ?_, ?_⟩
  · intro members cas revid crc32 exptime hslot hcas hrevid hexp hrange hcrc
    rw [document_slot_members res members cas revid crc32 exptime hslot hcas hrevid hexp hcrc
      hrange] at h8
    cases h8
    rfl
  · intro hslot
    rw [document_slot_absent res hslot] at h8
    cases h8
    rfl
  · intro doc hslot
    exact ⟨_, rfl, document_slot_present res doc a8 hslot h8⟩

/-- Witness of C26 on the lookup result of a document without a `txn` xattr. -/
theorem create_from_metadata_witness :
    ∃ r, create_from sample_dump sample_past_end ("default", "_default", "_default") "doc-2" plain_lookup
        = .ok r ∧ r.metadata = some ⟨some "0x20", some "4", some 0, some "0xabc"⟩ :=
  ⟨_, rfl,
    (create_from_metadata sample_dump sample_past_end ("default", "_default", "_default") "doc-2"
      plain_lookup _ rfl).2.1
      [("CAS", .str "0x20"), ("revid", .str "4"), ("exptime", .num 0),
        ("value_crc32c", .str "0xabc")] "0x20" "4" "0xabc" 0 rfl rfl rfl rfl (by decide) rfl⟩

end couchbase.transactions.transaction_get_result
namespace couchbase

/-- C22: `connect` with a `kv_timeout` of `t` microseconds returns when the five calls of
libcouchbase succeed; on the instance it returns, the op timeout is the count `t` as a
`uint32_t`, the persistence timeout floor is the maximum of the floor read before
and that op timeout: it is set to the op timeout when the op timeout is above the floor read
before, and it is left as it was otherwise. -/
theorem connect_persistence_floor_is_max (lib : lcb_library)
    (cluster_address user_name password : String) (t : Int) :
    ((lib.lcb_create cluster_address).1 = LCB_SUCCESS →
      lib.lcbauth_add_pass user_name password = LCB_SUCCESS → lib.lcb_connect = LCB_SUCCESS →
      lib.lcb_wait = LCB_SUCCESS → lib.lcb_get_bootstrap_status = LCB_SUCCESS →
      ∃ r, connect lib cluster_address user_name password (some t) = .ok r) ∧
    (∀ lcb kv, connect lib cluster_address user_name password (some t) = .ok (lcb, kv) →
      kv = some t ∧
      lcb.op_timeout = (t % (2 ^ 32 : Int)).toNat ∧
      lcb.persistence_timeout_floor =
        max (lib.lcb_create cluster_address).2.persistence_timeout_floor
          (t % (2 ^ 32 : Int)).toNat ∧
      ((t % (2 ^ 32 : Int)).toNat > (lib.lcb_create cluster_address).2.persistence_timeout_floor →
        lcb.persistence_timeout_floor = (t % (2 ^ 32 : Int)).toNat) ∧
      (¬ (t % (2 ^ 32 : Int)).toNat >
          (lib.lcb_create cluster_address).2.persistence_timeout_floor →
        lcb.persistence_timeout_floor =
          (lib.lcb_create cluster_address).2.persistence_timeout_floor)) := by
  constructor
  · intro h1 h2 h3 h4 h5
    simp [connect, h1, h2, h3, h4, h5]
  · intro lcb kv h
    unfold connect at h
    simp only [] at h
    split at h
    · cases h
    · split at h
      · cases h
      · split at h
        · cases h
        · split at h
          · cases h
          · split at h
            · cases h
            · by_cases hgt : (t % (2 ^ 32 : Int)).toNat >
                  (lib.lcb_create cluster_address).2.persistence_timeout_floor
              · simp only [hgt, if_true, Except.ok.injEq, Prod.mk.injEq] at h
                obtain ⟨hl, hk⟩ := h
                subst hl
                subst hk
                refine ⟨rfl, rfl, ?_, fun _ => rfl, fun hn => absurd hgt hn⟩
                simp only []
                omega
              · simp only [hgt, if_false, Except.ok.injEq, Prod.mk.injEq] at h
                obtain ⟨hl, hk⟩ := h
                subst hl
                subst hk
                refine ⟨rfl, rfl, ?_, fun hp => absurd hp hgt, fun _ => rfl⟩
                simp only []
                omega

/-- Witness of C22: a timeout of 3000000 microseconds raises the floor 1500000 of the sample
library to 3000000. -/
theorem connect_persistence_floor_is_max_witness :
    ∃ lcb kv, connect sample_library "couchbase://localhost" "Administrator" "password"
        (some 3000000) = .ok (lcb, kv) ∧
      lcb.op_timeout = 3000000 ∧ lcb.persistence_timeout_floor = 3000000 :=
  ⟨_, _, rfl,
    ((connect_persistence_floor_is_max sample_library "couchbase://localhost" "Administrator"
      "password" 3000000).2 _ _ rfl).2.1,
    ((connect_persistence_floor_is_max sample_library "couchbase://localhost" "Administrator"
      "password" 3000000).2 _ _ rfl).2.2.2.1 (by decide)⟩

end couchbase
namespace couchbase

/-- The digit of every draw is one of `0` to `9` or `a` to `f`. -/
theorem make_uuid_digit (d : Fin 16) :
    ('0' ≤ make_uuid_v.getD d.val '0' ∧ make_uuid_v.getD d.val '0' ≤ '9') ∨
    ('a' ≤ make_uuid_v.getD d.val '0' ∧ make_uuid_v.getD d.val '0' ≤ 'f') := by
  revert d
  decide

/-- The characters of `make_uuid`, one by one. -/
theorem make_uuid_data (draws : Nat → Fin 16) :
    (make_uuid draws).data =
     [make_uuid_v.getD (draws (0)).val '0',
      make_uuid_v.getD (draws (1)).val '0',
      make_uuid_v.getD (draws (2)).val '0',
      make_uuid_v.getD (draws (3)).val '0',
      make_uuid_v.getD (draws (4)).val '0',
      make_uuid_v.getD (draws (5)).val '0',
      make_uuid_v.getD (draws (6)).val '0',
      make_uuid_v.getD (draws (7)).val '0',
      '-',
      make_uuid_v.getD (draws (8)).val '0',
      make_uuid_v.getD (draws (9)).val '0',
      make_uuid_v.getD (draws (10)).val '0',
      make_uuid_v.getD (draws (11)).val '0',
      '-',
      make_uuid_v.getD (draws (12)).val '0',
      make_uuid_v.getD (draws (13)).val '0',
      make_uuid_v.getD (draws (14)).val '0',
      make_uuid_v.getD (draws (15)).val '0',
      '-',
      make_uuid_v.getD (draws (16)).val '0',
      make_uuid_v.getD (draws (17)).val '0',
      make_uuid_v.getD (draws (18)).val '0',
      make_uuid_v.getD (draws (19)).val '0',
      '-',
      make_uuid_v.getD (draws (20)).val '0',
      make_uuid_v.getD (draws (21)).val '0',
      make_uuid_v.getD (draws (22)).val '0',
      make_uuid_v.getD (draws (23)).val '0',
      make_uuid_v.getD (draws (24)).val '0',
      make_uuid_v.getD (draws (25)).val '0',
      make_uuid_v.getD (draws (26)).val '0',
      make_uuid_v.getD (draws (27)).val '0',
      make_uuid_v.getD (draws (28)).val '0',
      make_uuid_v.getD (draws (29)).val '0',
      make_uuid_v.getD (draws (30)).val '0',
      make_uuid_v.getD (draws (31)).val '0'] := by
  simp [make_uuid, List.range_succ, make_uuid_step, make_uuid_dash]

/-- C30: for every sequence of draws, `make_uuid` returns a string of length 36 whose
characters at positions 8, 13, 18 and 23 are `-` and whose other 32 characters are each one
of `0` to `9` or `a` to `f`. -/
theorem make_uuid_layout (draws : Nat → Fin 16) :
    (make_uuid draws).length = 36 ∧
    (make_uuid draws).data[8]? = some '-' ∧ (make_uuid draws).data[13]? = some '-' ∧
    (make_uuid draws).data[18]? = some '-' ∧ (make_uuid draws).data[23]? = some '-' ∧
    ∀ i, i < 36 → i ≠ 8 → i ≠ 13 → i ≠ 18 → i ≠ 23 →
      ∃ c, (make_uuid draws).data[i]? = some c ∧
        (('0' ≤ c ∧ c ≤ '9') ∨ ('a' ≤ c ∧ c ≤ 'f')) := by
  have hd := make_uuid_data draws
  refine ⟨?_, ?_, ?_, ?_, ?_, ?_⟩
  · rw [String.length, hd]
    rfl
  · rw [hd]; rfl
  · rw [hd]; rfl
  · rw [hd]; rfl
  · rw [hd]; rfl
  · intro i hi h8 h13 h18 h23
    rw [hd]
    interval_cases i <;> first
      | exact absurd rfl h8
      | exact absurd rfl h13
      | exact absurd rfl h18
      | exact absurd rfl h23
      | exact ⟨_, rfl, make_uuid_digit _⟩

/-- C28: the open buckets of a cluster never hold two buckets of one name: a cluster built
by either constructor has no open bucket, and a call of `bucket(name)` that returns keeps
the names distinct; it either leaves the list as it is or appends the returned bucket, of
name `name`, and the latter only when no open bucket has that name. -/
theorem open_buckets_names_distinct :
    (∀ lib cluster_address user_name password max_instances max_bucket_instances kv_timeout c,
      cluster.create lib cluster_address user_name password max_instances max_bucket_instances
        kv_timeout = .ok c → c.open_buckets_ = []) ∧
    (∀ c : cluster, c.copy.open_buckets_ = []) ∧
    (∀ has_bucket swap_available new_address (c : cluster) name b c1,
      c.open_buckets_.Pairwise (fun x y => x.object.name ≠ y.object.name) →
      cluster.bucket has_bucket swap_available new_address c name = .ok (b, c1) →
      c1.open_buckets_.Pairwise (fun x y => x.object.name ≠ y.object.name) ∧
      (c1.open_buckets_ = c.open_buckets_ ∨
        (c1.open_buckets_ = c.open_buckets_ ++ [b] ∧ b.object.name = name ∧
          ∀ x ∈ c.open_buckets_, x.object.name ≠ name))) := by
  refine ⟨?_, fun _ => rfl, ?_⟩
  · intro lib cluster_address user_name password max_instances max_bucket_instances
      kv_timeout c h
    simp only [cluster.create, pool.get, bind_ok_inv] at h
    obtain ⟨connected, -, hc⟩ := h
    cases hc
    rfl
  · intro has_bucket swap_available new_address c name b c1 hpair h
    unfold cluster.bucket at h
    cases hfind : c.open_buckets_.find? (fun b => b.object.name == name) with
    | some found =>
      rw [hfind] at h
      cases h
      exact ⟨hpair, Or.inl rfl⟩
    | none =>
      rw [hfind] at h
      simp only [bind_ok_inv] at h
      obtain ⟨timeout, -, created, hcreate, hres⟩ := h
      have hname : created.name = name := by
        unfold couchbase.bucket.create at hcreate
        split at hcreate
        · cases hcreate
          rfl
        · cases hcreate
      simp only [pure, Except.pure, Except.ok.injEq, Prod.mk.injEq] at hres
      obtain ⟨hb, hc1⟩ := hres
      subst hb
      subst hc1
      have hnone : ∀ x ∈ c.open_buckets_, x.object.name ≠ name := by
        intro x hx heq
        have := List.find?_eq_none.mp hfind x hx
        simp [heq] at this
      refine ⟨?_, Or.inr ⟨rfl, hname, hnone⟩⟩
      rw [List.pairwise_append]
      refine ⟨hpair, List.pairwise_singleton _ _, ?_⟩
      intro x hx y hy
      simp only [List.mem_singleton] at hy
      subst hy
      show x.object.name ≠ created.name
      rw [hname]
      exact hnone x hx

/-- Witness of C28: the first call of `bucket` on the sample cluster appends the bucket
`default`, and the names stay distinct. -/
theorem open_buckets_names_distinct_witness :
    ∃ b c1, cluster.bucket sample_has_bucket sample_swap_available 100 sample_cluster "default"
        = .ok (b, c1) ∧
      c1.open_buckets_.Pairwise (fun x y => x.object.name ≠ y.object.name) ∧
      c1.open_buckets_ = [b] :=
  ⟨_, _, rfl,
    (open_buckets_names_distinct.2.2 sample_has_bucket sample_swap_available 100 sample_cluster
      "default" _ _ List.Pairwise.nil rfl).1, rfl⟩

/-- The main constructor leaves a value in `kv_timeout_`: the timeout of the options, or
else the op timeout of the first instance. -/
theorem create_sets_kv_timeout (lib : lcb_library)
    (cluster_address user_name password : String) (max_instances max_bucket_instances : Nat)
    (kv_timeout : Option Nat) (c : cluster)
    (h : cluster.create lib cluster_address user_name password max_instances
      max_bucket_instances kv_timeout = .ok c) :
    c.kv_timeout_.isSome = true ∧ ∀ t, kv_timeout = some t → c.kv_timeout_ = some t := by
  simp only [cluster.create, pool.get, bind_ok_inv] at h
  obtain ⟨connected, hconn, hc⟩ := h
  cases hc
  unfold connect at hconn
  simp only [] at hconn
  split at hconn
  · cases hconn
  · split at hconn
    · cases hconn
    · split at hconn
      · cases hconn
      · split at hconn
        · cases hconn
        · split at hconn
          · cases hconn
          · cases kv_timeout with
            | none =>
              simp only [Option.map, Except.ok.injEq] at hconn
              subst hconn
              exact ⟨rfl, fun t ht => by cases ht⟩
            | some t0 =>
              simp only [Option.map, Except.ok.injEq] at hconn
              split at hconn <;> subst hconn <;>
                exact ⟨rfl, fun t ht => by cases ht; simp⟩

/-- C29, evaluation: the cluster built by the main constructor on the sample library holds
the timeout 2500000, but its copy holds none, so `default_kv_timeout()` on the copy reads
an empty optional, and so does `bucket("default")`. -/
theorem copy_has_no_kv_timeout :
    ∃ c, cluster.create sample_library "couchbase://localhost" "Administrator" "password" 4 10
        none = .ok c ∧
      c.kv_timeout_ = some 2500000 ∧
      c.default_kv_timeout = .ok 2500000 ∧
      c.copy.kv_timeout_ = none ∧
      c.copy.default_kv_timeout = .error .empty_optional ∧
      cluster.bucket sample_has_bucket sample_swap_available 100 c.copy "default"
        = .error .empty_optional :=
  ⟨_, rfl, rfl, rfl, rfl, rfl, rfl⟩

end couchbase
namespace couchbase

/-- Witness of C30 on the draws that count up from 0: the digit at position 9, after the
first dash, is `8`. -/
theorem make_uuid_layout_witness :
    make_uuid sample_draws = "01234567-89ab-cdef-0123-456789abcdef" ∧
    ∃ c, (make_uuid sample_draws).data[9]? = some c ∧
      (('0' ≤ c ∧ c ≤ '9') ∨ ('a' ≤ c ∧ c ≤ 'f')) :=
  ⟨by decide,
    (make_uuid_layout sample_draws).2.2.2.2.2 9 (by decide) (by decide) (by decide) (by decide)
      (by decide)⟩

end couchbase
